import Mathlib

/-!
# SCA_AddObjectActuator: registration bookkeeping of the add-object actuator

A shallow embedding of `source/gameengine/GameLogic/SCA_AddObjectActuator.cpp`.

* Pointers to scene objects (`SCA_IObject *`) are `Option ObjId`, `none` being `NULL`.
* The actuator's own address (`this`) is an `ActId` passed to every method that
  registers or unregisters it.
* Everything outside the actuator (the registration sets kept by the scene objects and
  the calls made on the scene and on game objects) lives in a `World`, threaded through
  the methods.
* C `float` values are only stored and forwarded by this file, never computed with;
  they are carried as integers standing for the stored value.
-/

namespace SCA

/-- Identity of a scene object (the address of an `SCA_IObject`). -/
abbrev ObjId := Nat

/-- Identity of a logic brick (the address of an actuator). -/
abbrev ActId := Nat

/-- Identity of a scene (the address of an `SCA_IScene`). -/
abbrev SceneId := Nat

/-- A C `float` as stored in the actuator; it is copied, never computed with. -/
abbrev Scalar := Int

/-- A `float[3]` member or argument (`m_linear_velocity`, `linvel`, ...). -/
structure Float3 where
  e0 : Scalar
  e1 : Scalar
  e2 : Scalar
  deriving DecidableEq, Repr

/-- The vector type handed to the game object's velocity methods. -/
structure MT_Vector3 where
  x : Scalar
  y : Scalar
  z : Scalar
  deriving DecidableEq, Repr

/-- The conversion `MT_Vector3(const float *)`: component by component. -/
def MT_Vector3.ofFloats (v : Float3) : MT_Vector3 :=
  { x := v.e0, y := v.e1, z := v.e2 }

/-- A call made by the actuator on one of its collaborators, in program order. -/
inductive Call where
  | AddReplicaObject (scene : SceneId) (originalobj : ObjId) (parentobj : Option ObjId)
      (lifespan : Scalar)
  | setLinearVelocity (obj : ObjId) (v : MT_Vector3) (loc : Bool)
  | setAngularVelocity (obj : ObjId) (v : MT_Vector3) (loc : Bool)
  | ResolveCombinedVelocities (obj : ObjId) (lin : MT_Vector3) (ang : MT_Vector3)
      (lin_local : Bool) (ang_local : Bool)
  | RegisterActuator (obj : ObjId) (act : ActId)
  | UnregisterActuator (obj : ObjId) (act : ActId)
  | Release (obj : ObjId)
  deriving DecidableEq, Repr

/-- What the actuator can observe and change outside itself: for every scene object the
set of logic bricks registered with it, and the trace of collaborator calls. -/
structure World where
  registered : ObjId → ActId → Bool
  calls : List Call

/-- Modelled from the spec: `SCA_IObject::RegisterActuator` is not part of the given
sources. "Each scene object holds the set of logic units that reference it; a logic unit
adds itself to that set when it acquires a reference". The call is also recorded. -/
def RegisterActuator (obj : ObjId) (act : ActId) (w : World) : World :=
  { registered := fun o x => if o = obj ∧ x = act then true else w.registered o x
    calls := w.calls ++ [Call.RegisterActuator obj act] }

/-- Modelled from the spec: `SCA_IObject::UnregisterActuator` is not part of the given
sources. A logic unit "removes itself" from the object's registration set "when it
releases the reference or is destroyed". The call is also recorded. -/
def UnregisterActuator (obj : ObjId) (act : ActId) (w : World) : World :=
  { registered := fun o x => if o = obj ∧ x = act then false else w.registered o x
    calls := w.calls ++ [Call.UnregisterActuator obj act] }

/-- Modelled from the spec: `SCA_IScene::AddReplicaObject` is an external collaborator
(`CreateClone(template, parent, delay) → new_object_handle`). The handle the scene
returns is the argument `replica`; the call is recorded with its three arguments. -/
def AddReplicaObject (replica : ObjId) (scene : SceneId) (originalobj : ObjId)
    (parentobj : Option ObjId) (lifespan : Scalar) (w : World) : ObjId × World :=
  (replica, { w with calls := w.calls ++
    [Call.AddReplicaObject scene originalobj parentobj lifespan] })

/-- Modelled from the spec: `KX_GameObject::setLinearVelocity` is an external
collaborator (`SetLinearVelocity(object, vector, is_local)`); the call is recorded. -/
def setLinearVelocity (obj : ObjId) (v : MT_Vector3) (loc : Bool) (w : World) : World :=
  { w with calls := w.calls ++ [Call.setLinearVelocity obj v loc] }

/-- Modelled from the spec: `KX_GameObject::setAngularVelocity` is an external
collaborator (`SetAngularVelocity(object, vector, is_local)`); the call is recorded. -/
def setAngularVelocity (obj : ObjId) (v : MT_Vector3) (loc : Bool) (w : World) : World :=
  { w with calls := w.calls ++ [Call.setAngularVelocity obj v loc] }

/-- Modelled from the spec: `KX_GameObject::ResolveCombinedVelocities` is an external
collaborator (`ResolveCombinedVelocity(object, linear, angular, linear_is_local,
angular_is_local)`); the call is recorded. -/
def ResolveCombinedVelocities (obj : ObjId) (lin ang : MT_Vector3)
    (lin_local ang_local : Bool) (w : World) : World :=
  { w with calls := w.calls ++
    [Call.ResolveCombinedVelocities obj lin ang lin_local ang_local] }

/-- Modelled from the spec: `CValue::Release` on the handle returned by the scene
("strong, caller must release after use"); the call is recorded. -/
def Release (obj : ObjId) (w : World) : World :=
  { w with calls := w.calls ++ [Call.Release obj] }

/-- The part of the actuator that belongs to its base class `SCA_IActuator`: the owning
object returned by `GetParent()` and the pending trigger events (`true` is a positive
event, `false` a negative one). -/
structure SCA_IActuator where
  m_gameobj : Option ObjId
  m_events : List Bool
  deriving DecidableEq, Repr

/-- The add-object actuator: the base part and the members set by the constructor. -/
structure SCA_AddObjectActuator extends SCA_IActuator where
  m_OriginalObject : Option ObjId
  m_lastCreatedObject : Option ObjId
  m_timeProp : Scalar
  m_scene : SceneId
  m_linear_velocity : Float3
  m_angular_velocity : Float3
  m_localLinvFlag : Bool
  m_localAngvFlag : Bool
  deriving DecidableEq, Repr

namespace SCA_AddObjectActuator

/-- Modelled from the spec: `SCA_ILogicBrick::GetParent` is not part of the given
sources; it yields the "owning scene object". -/
def GetParent (a : SCA_AddObjectActuator) : Option ObjId :=
  a.m_gameobj

/-- Modelled from the spec: `SCA_IActuator::IsNegativeEvent` is not part of the given
sources. The trigger is negative when the pending events are "only negative events":
at least one negative event and no positive one. -/
def IsNegativeEvent (a : SCA_AddObjectActuator) : Bool :=
  !(a.m_events.any fun e => e) && (a.m_events.any fun e => !e)

/-- Modelled from the spec: `SCA_IActuator::RemoveAllEvents` is not part of the given
sources; it "clears pending trigger events". -/
def RemoveAllEvents (a : SCA_AddObjectActuator) : SCA_AddObjectActuator :=
  { a with m_events := [] }

/-- Modelled from the spec: `SCA_IActuator::AddEvent` is not part of the given sources;
the engine "delivers trigger events to each logic unit" before `Update` runs. -/
def AddEvent (event : Bool) (a : SCA_AddObjectActuator) : SCA_AddObjectActuator :=
  { a with m_events := a.m_events ++ [event] }

/-- The constructor (lines 35-61). `self` is the address of the new actuator. -/
def ctor (self : ActId) (gameobj : Option ObjId) (original : Option ObjId) (time : Scalar)
    (scene : SceneId) (linvel : Float3) (linv_local : Bool) (angvel : Float3)
    (angv_local : Bool) (w : World) : SCA_AddObjectActuator × World :=
  let w1 := match original with
    | some o => RegisterActuator o self w
    | none => w
  ({ m_gameobj := gameobj
     m_events := []
     m_OriginalObject := original
     m_scene := scene
     m_localLinvFlag := linv_local
     m_localAngvFlag := angv_local
     m_linear_velocity := { e0 := linvel.e0, e1 := linvel.e1, e2 := linvel.e2 }
     m_angular_velocity := { e0 := angvel.e0, e1 := angvel.e1, e2 := angvel.e2 }
     m_lastCreatedObject := none
     m_timeProp := time }, w1)

/-- The destructor (lines 63-69): the effect on the registration sets. -/
def dtor (self : ActId) (a : SCA_AddObjectActuator) (w : World) : World :=
  let w1 := match a.m_OriginalObject with
    | some o => UnregisterActuator o self w
    | none => w
  match a.m_lastCreatedObject with
  | some o => UnregisterActuator o self w1
  | none => w1

/-- The method `InstantAddObject` (lines 136-170). `replica` is the handle the scene returns. -/
def InstantAddObject (self : ActId) (replica : ObjId) (a : SCA_AddObjectActuator)
    (w : World) : SCA_AddObjectActuator × World :=
  match a.m_OriginalObject with
  | none => (a, w)
  | some original =>
    let r := AddReplicaObject replica a.m_scene original a.GetParent a.m_timeProp w
    let game_obj := r.1
    let w1 := setLinearVelocity game_obj (MT_Vector3.ofFloats a.m_linear_velocity)
      a.m_localLinvFlag r.2
    let w2 := setAngularVelocity game_obj (MT_Vector3.ofFloats a.m_angular_velocity)
      a.m_localAngvFlag w1
    let w3 := ResolveCombinedVelocities game_obj (MT_Vector3.ofFloats a.m_linear_velocity)
      (MT_Vector3.ofFloats a.m_angular_velocity) a.m_localLinvFlag a.m_localAngvFlag w2
    let s := match a.m_lastCreatedObject with
      | some last => ({ a with m_lastCreatedObject := none }, UnregisterActuator last self w3)
      | none => (a, w3)
    let a1 := { s.1 with m_lastCreatedObject := some r.1 }
    let w4 := RegisterActuator r.1 self s.2
    (a1, Release r.1 w4)

/-- The method `Update` (lines 71-82): the returned flag, the actuator and the world afterwards. -/
def Update (self : ActId) (replica : ObjId) (a : SCA_AddObjectActuator) (w : World) :
    Bool × SCA_AddObjectActuator × World :=
  let bNegativeEvent := a.IsNegativeEvent
  let a1 := a.RemoveAllEvents
  if bNegativeEvent then
    (false, a1, w)
  else
    let s := InstantAddObject self replica a1 w
    (false, s.1, s.2)

/-- The method `GetLastCreatedObject` (lines 84-87). -/
def GetLastCreatedObject (a : SCA_AddObjectActuator) : Option ObjId :=
  a.m_lastCreatedObject

/-- The method `ProcessReplica` (lines 102-108), run on the copy whose address is `self`.
`baseProcessReplica` is `SCA_IActuator::ProcessReplica`, which is not part of the given
sources and acts on the base-class part only. -/
def ProcessReplica (baseProcessReplica : SCA_IActuator → SCA_IActuator) (self : ActId)
    (a : SCA_AddObjectActuator) (w : World) : SCA_AddObjectActuator × World :=
  let w1 := match a.m_OriginalObject with
    | some o => RegisterActuator o self w
    | none => w
  let a1 := { a with m_lastCreatedObject := none }
  ({ a1 with toSCA_IActuator := baseProcessReplica a1.toSCA_IActuator }, w1)

/-- The method `GetReplica` (lines 89-100): the copy constructor copies every member; the
copy, allocated at address `replica`, then runs `ProcessReplica`. The original is only
read. The `NULL` test on the result of `new` never fires and has no counterpart here. -/
def GetReplica (baseProcessReplica : SCA_IActuator → SCA_IActuator) (replica : ActId)
    (a : SCA_AddObjectActuator) (w : World) : SCA_AddObjectActuator × World :=
  let copy : SCA_AddObjectActuator := a
  ProcessReplica baseProcessReplica replica copy w

/-- The method `UnlinkObject` (lines 110-123): the returned flag and the actuator afterwards. -/
def UnlinkObject (clientobj : Option ObjId) (a : SCA_AddObjectActuator) :
    Bool × SCA_AddObjectActuator :=
  if clientobj = a.m_OriginalObject then
    (true, { a with m_OriginalObject := none })
  else if clientobj = a.m_lastCreatedObject then
    (true, { a with m_lastCreatedObject := none })
  else
    (false, a)

/-- A pointer as stored in the relink table (`void *`); `none` is `NULL`. -/
abbrev Ptr := Option ObjId

/-- The table `std::map<void *, void *>` handed to `Relink`: `none` where the table has
no entry for the key. -/
abbrev ObjMap := Ptr → Option Ptr

/-- The lookup `obj_map[key]` of `std::map`: a missing key is first inserted with the
value-initialised pointer `NULL`; the value found and the table afterwards. -/
def ObjMap.index (obj_map : ObjMap) (key : Ptr) : Ptr × ObjMap :=
  match obj_map key with
  | some v => (v, obj_map)
  | none => (none, fun k => if k = key then some none else obj_map k)

/-- The method `Relink` (lines 125-134): the actuator, the world and the caller's table afterwards. -/
def Relink (self : ActId) (obj_map : ObjMap) (a : SCA_AddObjectActuator) (w : World) :
    SCA_AddObjectActuator × World × ObjMap :=
  let r := ObjMap.index obj_map a.m_OriginalObject
  match r.1 with
  | some h_obj =>
    let w1 := match a.m_OriginalObject with
      | some o => UnregisterActuator o self w
      | none => w
    let a1 := { a with m_OriginalObject := some h_obj }
    (a1, RegisterActuator h_obj self w1, r.2)
  | none => (a, w, r.2)

/-- A value of the scripting layer, as far as the actuator's attributes see it. -/
inductive PyValue where
  | None
  | GameObject (obj : ObjId)
  | Other (tag : Nat)
  deriving DecidableEq, Repr

/-- The two results of an attribute setter. -/
inductive PySetAttrResult where
  | PY_SET_ATTR_FAIL
  | PY_SET_ATTR_SUCCESS
  deriving DecidableEq, Repr

/-- Modelled from the spec: `ConvertPythonToGameObject` is not part of the given sources.
A value of the "wrong value type/kind" is "rejected at the binding boundary" (`none`);
`None` is accepted as the absent object when `py_none_ok` holds, and the proxy of a game
object is accepted as that object. -/
def ConvertPythonToGameObject (value : PyValue) (py_none_ok : Bool) : Option (Option ObjId) :=
  match value with
  | PyValue.None => if py_none_ok then some none else none
  | PyValue.GameObject obj => some (some obj)
  | PyValue.Other _ => none

/-- Modelled from the spec: `GetProxy` is not part of the given sources; the scripting
value that stands for a game object. -/
def GetProxy (obj : ObjId) : PyValue :=
  PyValue.GameObject obj

/-- The method `pyattr_get_object` (lines 215-222). -/
def pyattr_get_object (a : SCA_AddObjectActuator) : PyValue :=
  match a.m_OriginalObject with
  | none => PyValue.None
  | some o => GetProxy o

/-- The method `pyattr_set_object` (lines 224-241): the result code, the actuator and the world. -/
def pyattr_set_object (self : ActId) (value : PyValue) (a : SCA_AddObjectActuator)
    (w : World) : PySetAttrResult × SCA_AddObjectActuator × World :=
  match ConvertPythonToGameObject value true with
  | none => (PySetAttrResult.PY_SET_ATTR_FAIL, a, w)
  | some gameobj =>
    let w1 := match a.m_OriginalObject with
      | some o => UnregisterActuator o self w
      | none => w
    let a1 := { a with m_OriginalObject := gameobj }
    let w2 := match a1.m_OriginalObject with
      | some o => RegisterActuator o self w1
      | none => w1
    (PySetAttrResult.PY_SET_ATTR_SUCCESS, a1, w2)

/-- The method `pyattr_get_objectLastCreated` (lines 243-250). -/
def pyattr_get_objectLastCreated (a : SCA_AddObjectActuator) : PyValue :=
  match a.m_lastCreatedObject with
  | none => PyValue.None
  | some o => GetProxy o

/-- The method `PyInstantAddObject` (lines 252-256): the returned value, the actuator, the world. -/
def PyInstantAddObject (self : ActId) (replica : ObjId) (a : SCA_AddObjectActuator)
    (w : World) : PyValue × SCA_AddObjectActuator × World :=
  let s := InstantAddObject self replica a w
  (PyValue.None, s.1, s.2)

/-- Modelled from the spec: the destruction of a scene object is not part of the given
sources. "An object being destroyed always proactively notifies every referencing logic
unit before destruction completes": the actuator receives `UnlinkObject(obj)` when it is
in the registration set of `obj`, and that set disappears with the object. -/
def DestroyObject (self : ActId) (obj : ObjId) (a : SCA_AddObjectActuator) (w : World) :
    SCA_AddObjectActuator × World :=
  let a1 := if w.registered obj self then (UnlinkObject (some obj) a).2 else a
  (a1, { w with registered := fun o x => if o = obj then false else w.registered o x })

/-- One thing that can happen to a live actuator between its construction and its
destruction. -/
inductive Op where
  | AddEvent (event : Bool)
  | Update (replica : ObjId)
  | InstantAddObject (replica : ObjId)
  | SetObject (value : PyValue)
  | Relink (obj_map : ObjMap)
  | DestroyObject (obj : ObjId)

/-- The effect of one operation on the actuator at address `self` and on the world. -/
def step (self : ActId) (op : Op) (s : SCA_AddObjectActuator × World) :
    SCA_AddObjectActuator × World :=
  match op with
  | Op.AddEvent event => (AddEvent event s.1, s.2)
  | Op.Update replica => (Update self replica s.1 s.2).2
  | Op.InstantAddObject replica => (PyInstantAddObject self replica s.1 s.2).2
  | Op.SetObject value => (pyattr_set_object self value s.1 s.2).2
  | Op.Relink obj_map =>
    let r := Relink self obj_map s.1 s.2
    (r.1, r.2.1)
  | Op.DestroyObject obj => DestroyObject self obj s.1 s.2

/-- The operations of `ops` applied from left to right. -/
def run (self : ActId) (ops : List Op) (s : SCA_AddObjectActuator × World) :
    SCA_AddObjectActuator × World :=
  ops.foldl (fun acc op => step self op acc) s

end SCA_AddObjectActuator

/-- A world in which no logic brick is registered anywhere and no call was made. -/
def World.empty : World :=
  { registered := fun _ _ => false, calls := [] }

/-- Whether a call is a clone-creation call on the scene. -/
def Call.isAddReplicaObject : Call → Bool
  | Call.AddReplicaObject _ _ _ _ => true
  | _ => false

/-- The calls `InstantAddObject` makes when the template is `T`, in program order. -/
def SCA_AddObjectActuator.spawnCalls (self : ActId) (replica : ObjId) (T : ObjId) (a : SCA_AddObjectActuator) :
    List Call :=
  [Call.AddReplicaObject a.m_scene T a.m_gameobj a.m_timeProp,
   Call.setLinearVelocity replica (MT_Vector3.ofFloats a.m_linear_velocity) a.m_localLinvFlag,
   Call.setAngularVelocity replica (MT_Vector3.ofFloats a.m_angular_velocity)
     a.m_localAngvFlag,
   Call.ResolveCombinedVelocities replica (MT_Vector3.ofFloats a.m_linear_velocity)
     (MT_Vector3.ofFloats a.m_angular_velocity) a.m_localLinvFlag a.m_localAngvFlag] ++
  (match a.m_lastCreatedObject with
   | some last => [Call.UnregisterActuator last self]
   | none => []) ++
  [Call.RegisterActuator replica self, Call.Release replica]

/-- The objects whose registration set holds the actuator `self` are all referenced by
one of the two weak references of the actuator. -/
def RegisteredWithin (self : ActId) (s : SCA_AddObjectActuator × World) : Prop :=
  ∀ o, s.2.registered o self = true →
    s.1.m_OriginalObject = some o ∨ s.1.m_lastCreatedObject = some o

namespace Example

open SCA_AddObjectActuator

/-- The actuator at address 7, owned by object 0, built for template object 1 in an
empty world, with world-frame linear velocity (1,0,0), no angular velocity, no delay. -/
def constructed : SCA_AddObjectActuator × World :=
  ctor 7 (some 0) (some 1) 0 0 ⟨1, 0, 0⟩ false ⟨0, 0, 0⟩ false World.empty

/-- One spawn after construction; the scene returns object 2. -/
def spawned : SCA_AddObjectActuator × World :=
  InstantAddObject 7 2 constructed.1 constructed.2

/-- The script statement `act.object = act.objectLastCreated` after the first spawn:
both weak references now name object 2. -/
def aliased : SCA_AddObjectActuator × World :=
  (pyattr_set_object 7 (pyattr_get_objectLastCreated spawned.1) spawned.1 spawned.2).2

/-- A further spawn from the aliased state; the scene returns object 3. -/
def aliasedSpawn : SCA_AddObjectActuator × World :=
  InstantAddObject 7 3 aliased.1 aliased.2

/-- The actuator at address 7, owned by object 0 in scene 8, built for template object 1
in an empty world, with delay 5, local-frame linear velocity (1,2,3) and world-frame
angular velocity (4,5,6). -/
def moving : SCA_AddObjectActuator × World :=
  ctor 7 (some 0) (some 1) 5 8 ⟨1, 2, 3⟩ true ⟨4, 5, 6⟩ false World.empty

/-- A stand-in for `SCA_IActuator::ProcessReplica` that drops the pending events. -/
def dropEvents (b : SCA_IActuator) : SCA_IActuator :=
  { b with m_events := [] }

end Example

namespace Example

open SCA_AddObjectActuator

/-- A relink table with the two entries object 1 ↦ object 2 and object 2 ↦ object 9. -/
def oneToTwo : ObjMap :=
  fun k => if k = some 1 then some (some 2) else if k = some 2 then some (some 9) else none

/-- A relink table with the single entry object 1 ↦ object 4. -/
def oneToFour : ObjMap :=
  fun k => if k = some 1 then some (some 4) else none

/-- The empty relink table. -/
def emptyTable : ObjMap :=
  fun _ => none

/-- The constructed example actuator after a spawn returning object 2, the assignment of
object 2 as template and a spawn returning object 3. -/
def afterSpawns : SCA_AddObjectActuator × World :=
  step 7 (Op.InstantAddObject 3)
    (step 7 (Op.SetObject (PyValue.GameObject 2))
      (step 7 (Op.InstantAddObject 2) constructed))

/-- The state `afterSpawns` after a replication of the actuator at address 9 and the
destruction of object 2. -/
def lived : SCA_AddObjectActuator × World :=
  step 7 (Op.DestroyObject 2)
    (afterSpawns.1, (GetReplica dropEvents 9 afterSpawns.1 afterSpawns.2).2)

end Example

namespace SCA_AddObjectActuator

/-- The states a live actuator at address `self` can be in: it was built by the
constructor or as the copy made by `GetReplica`, in both cases at an address that is
registered nowhere, and then saw any number of operations, of replications of itself
at other addresses, and of changes made elsewhere in the world that leave its own
registrations alone. -/
inductive Reachable (baseProcessReplica : SCA_IActuator → SCA_IActuator) (self : ActId) :
    SCA_AddObjectActuator × World → Prop where
  | constructed (gameobj original : Option ObjId) (time : Scalar) (scene : SceneId)
      (linvel : Float3) (linv_local : Bool) (angvel : Float3) (angv_local : Bool)
      (w : World) (hfresh : ∀ o, w.registered o self = false) :
      Reachable baseProcessReplica self
        (ctor self gameobj original time scene linvel linv_local angvel angv_local w)
  | madeAsReplica (a : SCA_AddObjectActuator) (w : World)
      (hfresh : ∀ o, w.registered o self = false) :
      Reachable baseProcessReplica self (GetReplica baseProcessReplica self a w)
  | afterOp (op : Op) (s : SCA_AddObjectActuator × World) :
      Reachable baseProcessReplica self s →
      Reachable baseProcessReplica self (step self op s)
  | afterReplication (b : ActId) (s : SCA_AddObjectActuator × World) (hb : b ≠ self) :
      Reachable baseProcessReplica self s →
      Reachable baseProcessReplica self (s.1, (GetReplica baseProcessReplica b s.1 s.2).2)
  | afterElsewhere (s : SCA_AddObjectActuator × World) (w : World)
      (hsame : ∀ o, w.registered o self = s.2.registered o self) :
      Reachable baseProcessReplica self s →
      Reachable baseProcessReplica self (s.1, w)

/-- The calls the destructor makes, in program order. -/
def dtorCalls (self : ActId) (a : SCA_AddObjectActuator) : List Call :=
  (match a.m_OriginalObject with
   | some o => [Call.UnregisterActuator o self]
   | none => []) ++
  (match a.m_lastCreatedObject with
   | some o => [Call.UnregisterActuator o self]
   | none => [])

end SCA_AddObjectActuator

namespace SCA_AddObjectActuator

/-- The data members declared by the class `SCA_AddObjectActuator`. -/
inductive Member where
  | m_OriginalObject
  | m_lastCreatedObject
  | m_timeProp
  | m_scene
  | m_linear_velocity
  | m_angular_velocity
  | m_localLinvFlag
  | m_localAngvFlag
  deriving DecidableEq, Repr

/-- The limits written in the attribute table: `0.0f`, `FLT_MAX` and `-FLT_MAX`. -/
inductive FloatLimit where
  | zero
  | FLT_MAX
  | neg_FLT_MAX
  deriving DecidableEq, Repr

/-- The getter functions named in the attribute table. -/
inductive GetFunction where
  | pyattr_get_object
  | pyattr_get_objectLastCreated
  deriving DecidableEq, Repr

/-- The setter functions named in the attribute table. -/
inductive SetFunction where
  | pyattr_set_object
  deriving DecidableEq, Repr

/-- The code behind a getter name. -/
def GetFunction.call : GetFunction → SCA_AddObjectActuator → PyValue
  | GetFunction.pyattr_get_object => SCA_AddObjectActuator.pyattr_get_object
  | GetFunction.pyattr_get_objectLastCreated =>
    SCA_AddObjectActuator.pyattr_get_objectLastCreated

/-- The code behind a setter name. -/
def SetFunction.call : SetFunction → ActId → PyValue → SCA_AddObjectActuator → World →
    PySetAttrResult × SCA_AddObjectActuator × World
  | SetFunction.pyattr_set_object => SCA_AddObjectActuator.pyattr_set_object

/-- The member a getter reads (lines 215-222 and 243-250). -/
def GetFunction.reads : GetFunction → Member
  | GetFunction.pyattr_get_object => Member.m_OriginalObject
  | GetFunction.pyattr_get_objectLastCreated => Member.m_lastCreatedObject

/-- The member a setter assigns (lines 224-241). -/
def SetFunction.writes : SetFunction → Member
  | SetFunction.pyattr_set_object => Member.m_OriginalObject

/-- One entry of the attribute table, named after the macro that builds it, with the
macro's arguments (the class argument, always `SCA_AddObjectActuator`, is left out). -/
inductive PyAttributeDef where
  | KX_PYATTRIBUTE_RW_FUNCTION (name : String) (getfunction : GetFunction)
      (setfunction : SetFunction)
  | KX_PYATTRIBUTE_RO_FUNCTION (name : String) (getfunction : GetFunction)
  | KX_PYATTRIBUTE_FLOAT_RW (name : String) (min : FloatLimit) (max : FloatLimit)
      (field : Member)
  | KX_PYATTRIBUTE_FLOAT_ARRAY_RW (name : String) (min : FloatLimit) (max : FloatLimit)
      (field : Member) (length : Nat)
  deriving DecidableEq, Repr

/-- The name under which an entry is visible to scripts. -/
def PyAttributeDef.name : PyAttributeDef → String
  | KX_PYATTRIBUTE_RW_FUNCTION name _ _ => name
  | KX_PYATTRIBUTE_RO_FUNCTION name _ => name
  | KX_PYATTRIBUTE_FLOAT_RW name _ _ _ => name
  | KX_PYATTRIBUTE_FLOAT_ARRAY_RW name _ _ _ _ => name

/-- Modelled from the spec: the `KX_PYATTRIBUTE_*` macros are not part of the given
sources. The table is "a mapping from attribute name to typed getter/setter pairs that
delegate to the core's plain accessors": every entry reads the member behind it. -/
def PyAttributeDef.reads : PyAttributeDef → Member
  | KX_PYATTRIBUTE_RW_FUNCTION _ getfunction _ => getfunction.reads
  | KX_PYATTRIBUTE_RO_FUNCTION _ getfunction => getfunction.reads
  | KX_PYATTRIBUTE_FLOAT_RW _ _ _ field => field
  | KX_PYATTRIBUTE_FLOAT_ARRAY_RW _ _ _ field _ => field

/-- Modelled from the spec: the `KX_PYATTRIBUTE_*` macros are not part of the given
sources. An `RW` entry also writes the member behind it; an `RO` entry ("read-only")
writes nothing. -/
def PyAttributeDef.writes : PyAttributeDef → Option Member
  | KX_PYATTRIBUTE_RW_FUNCTION _ _ setfunction => some setfunction.writes
  | KX_PYATTRIBUTE_RO_FUNCTION _ _ => none
  | KX_PYATTRIBUTE_FLOAT_RW _ _ _ field => some field
  | KX_PYATTRIBUTE_FLOAT_ARRAY_RW _ _ _ field _ => some field

/-- The table `SCA_AddObjectActuator::Attributes` (lines 206-213), without its sentinel. -/
def Attributes : List PyAttributeDef :=
  [PyAttributeDef.KX_PYATTRIBUTE_RW_FUNCTION "object" GetFunction.pyattr_get_object
     SetFunction.pyattr_set_object,
   PyAttributeDef.KX_PYATTRIBUTE_RO_FUNCTION "objectLastCreated"
     GetFunction.pyattr_get_objectLastCreated,
   PyAttributeDef.KX_PYATTRIBUTE_FLOAT_RW "time" FloatLimit.zero FloatLimit.FLT_MAX
     Member.m_timeProp,
   PyAttributeDef.KX_PYATTRIBUTE_FLOAT_ARRAY_RW "linearVelocity" FloatLimit.neg_FLT_MAX
     FloatLimit.FLT_MAX Member.m_linear_velocity 3,
   PyAttributeDef.KX_PYATTRIBUTE_FLOAT_ARRAY_RW "angularVelocity" FloatLimit.neg_FLT_MAX
     FloatLimit.FLT_MAX Member.m_angular_velocity 3]

/-- Whether some entry of the attribute table reads the member. -/
def readable (m : Member) : Bool :=
  Attributes.any fun d => decide (d.reads = m)

/-- Whether some entry of the attribute table writes the member. -/
def writable (m : Member) : Bool :=
  Attributes.any fun d => decide (d.writes = some m)

/-- The functions named in the method table. -/
inductive PyCFunction where
  | sPyInstantAddObject
  deriving DecidableEq, Repr

/-- The calling conventions named in the method table. -/
inductive MethFlags where
  | METH_NOARGS
  deriving DecidableEq, Repr

/-- One entry of the method table (the documentation pointer, `NULL` here, is left
out). -/
structure PyMethodDef where
  ml_name : String
  ml_meth : PyCFunction
  ml_flags : MethFlags
  deriving DecidableEq, Repr

/-- The table `SCA_AddObjectActuator::Methods` (lines 201-204), without its sentinel. -/
def Methods : List PyMethodDef :=
  [{ ml_name := "instantAddObject", ml_meth := PyCFunction.sPyInstantAddObject,
     ml_flags := MethFlags.METH_NOARGS }]

/-- Modelled from the spec: the static wrapper `sPyInstantAddObject` is generated by a
header that is not part of the given sources; it is the "spawn now" entry point and runs
`PyInstantAddObject` on the actuator the script holds. -/
def PyCFunction.call : PyCFunction → ActId → ObjId → SCA_AddObjectActuator → World →
    PyValue × SCA_AddObjectActuator × World
  | PyCFunction.sPyInstantAddObject => SCA_AddObjectActuator.PyInstantAddObject

end SCA_AddObjectActuator

/-- The registrations of the actuator `act` with the object `obj` that the calls of a
trace leave outstanding: every `RegisterActuator(obj, act)` call adds one, every
`UnregisterActuator(obj, act)` call takes one back. The count depends only on the calls
the actuator makes, not on how the object stores them. -/
def entries (obj : ObjId) (act : ActId) (calls : List Call) : Nat :=
  calls.foldl
    (fun n c =>
      if c = Call.RegisterActuator obj act then n + 1
      else if c = Call.UnregisterActuator obj act then n - 1
      else n)
    0

namespace SCA_AddObjectActuator

/-- The calls made when the template reference is replaced: the unregistration from the
old template `old` and the registration with the new template `g`, each when present. -/
def retargetCalls (self : ActId) (old g : Option ObjId) : List Call :=
  (match old with
   | some t => [Call.UnregisterActuator t self]
   | none => []) ++
  (match g with
   | some n => [Call.RegisterActuator n self]
   | none => [])

/-- The actuator after `n` successive `UnlinkObject(clientobj)` notifications. -/
def unlinkAll (clientobj : ObjId) : Nat → SCA_AddObjectActuator → SCA_AddObjectActuator
  | 0, a => a
  | n + 1, a => unlinkAll clientobj n (UnlinkObject (some clientobj) a).2

/-- How many of the two weak references of the actuator name the object `obj`. -/
def references (a : SCA_AddObjectActuator) (obj : ObjId) : Nat :=
  (if a.m_OriginalObject = some obj then 1 else 0) +
  (if a.m_lastCreatedObject = some obj then 1 else 0)

/-- The states of a live actuator at address `self` together with the trace of calls made
so far: it was built by the constructor or as the copy made by `GetReplica`, and then saw
any number of events, updates, spawns, scripting assignments of the template, relinks,
`UnlinkObject` notifications and replications of itself at other addresses. -/
inductive Tracked (baseProcessReplica : SCA_IActuator → SCA_IActuator) (self : ActId) :
    SCA_AddObjectActuator × World → Prop where
  | constructed (gameobj original : Option ObjId) (time : Scalar) (scene : SceneId)
      (linvel : Float3) (linv_local : Bool) (angvel : Float3) (angv_local : Bool)
      (w : World) :
      Tracked baseProcessReplica self
        (ctor self gameobj original time scene linvel linv_local angvel angv_local w)
  | madeAsReplica (a : SCA_AddObjectActuator) (w : World) :
      Tracked baseProcessReplica self (GetReplica baseProcessReplica self a w)
  | afterAddEvent (event : Bool) (s : SCA_AddObjectActuator × World) :
      Tracked baseProcessReplica self s →
      Tracked baseProcessReplica self (AddEvent event s.1, s.2)
  | afterUpdate (replica : ObjId) (s : SCA_AddObjectActuator × World) :
      Tracked baseProcessReplica self s →
      Tracked baseProcessReplica self (Update self replica s.1 s.2).2
  | afterInstantAddObject (replica : ObjId) (s : SCA_AddObjectActuator × World) :
      Tracked baseProcessReplica self s →
      Tracked baseProcessReplica self (InstantAddObject self replica s.1 s.2)
  | afterSetObject (value : PyValue) (s : SCA_AddObjectActuator × World) :
      Tracked baseProcessReplica self s →
      Tracked baseProcessReplica self (pyattr_set_object self value s.1 s.2).2
  | afterRelink (obj_map : ObjMap) (s : SCA_AddObjectActuator × World) :
      Tracked baseProcessReplica self s →
      Tracked baseProcessReplica self
        ((Relink self obj_map s.1 s.2).1, (Relink self obj_map s.1 s.2).2.1)
  | afterUnlinkObject (clientobj : ObjId) (s : SCA_AddObjectActuator × World) :
      Tracked baseProcessReplica self s →
      Tracked baseProcessReplica self ((UnlinkObject (some clientobj) s.1).2, s.2)
  | afterReplication (b : ActId) (s : SCA_AddObjectActuator × World) (hb : b ≠ self) :
      Tracked baseProcessReplica self s →
      Tracked baseProcessReplica self (s.1, (GetReplica baseProcessReplica b s.1 s.2).2)

end SCA_AddObjectActuator

/-! ## Registration sets after each collaborator call -/

@[simp]
theorem registered_RegisterActuator (obj : ObjId) (act : ActId) (w : World)
    (o : ObjId) (x : ActId) :
    (RegisterActuator obj act w).registered o x =
      if o = obj ∧ x = act then true else w.registered o x := rfl

@[simp]
theorem registered_UnregisterActuator (obj : ObjId) (act : ActId) (w : World)
    (o : ObjId) (x : ActId) :
    (UnregisterActuator obj act w).registered o x =
      if o = obj ∧ x = act then false else w.registered o x := rfl

@[simp]
theorem calls_RegisterActuator (obj : ObjId) (act : ActId) (w : World) :
    (RegisterActuator obj act w).calls = w.calls ++ [Call.RegisterActuator obj act] := rfl

@[simp]
theorem calls_UnregisterActuator (obj : ObjId) (act : ActId) (w : World) :
    (UnregisterActuator obj act w).calls = w.calls ++ [Call.UnregisterActuator obj act] :=
  rfl

namespace SCA_AddObjectActuator

/-! ## UnlinkObject -/

/-- The flag returned by `UnlinkObject` says whether one of the two weak references
named the candidate. -/
theorem UnlinkObject_fst (clientobj : Option ObjId) (a : SCA_AddObjectActuator) :
    (UnlinkObject clientobj a).1 = true ↔
      (clientobj = a.m_OriginalObject ∨ clientobj = a.m_lastCreatedObject) := by
  unfold UnlinkObject
  by_cases h1 : clientobj = a.m_OriginalObject
  · rw [if_pos h1]
    exact ⟨fun _ => Or.inl h1, fun _ => rfl⟩
  · by_cases h2 : clientobj = a.m_lastCreatedObject
    · rw [if_neg h1, if_pos h2]
      exact ⟨fun _ => Or.inr h2, fun _ => rfl⟩
    · rw [if_neg h1, if_neg h2]
      exact ⟨fun h => absurd h Bool.false_ne_true,
        fun h => h.elim (fun e => absurd e h1) (fun e => absurd e h2)⟩

/-- C2 (code defect): when both weak references name the candidate (object 2 in the
aliased state), `UnlinkObject(candidate)` returns true after clearing the template
reference only: the last-created reference still names the candidate afterwards. -/
theorem UnlinkObject_aliased_keeps_lastCreated :
    Example.aliased.1.m_OriginalObject = some 2 ∧
    Example.aliased.1.m_lastCreatedObject = some 2 ∧
    (UnlinkObject (some 2) Example.aliased.1).1 = true ∧
    (UnlinkObject (some 2) Example.aliased.1).2.m_OriginalObject = none ∧
    (UnlinkObject (some 2) Example.aliased.1).2.m_lastCreatedObject = some 2 := by
  decide

/-- C3: if the template reference names `T`, `UnlinkObject(T)` returns true and leaves the
template reference absent; for an object `U` named by neither weak reference,
`UnlinkObject(U)` returns false and the actuator is unchanged in every member. -/
theorem UnlinkObject_correct (a : SCA_AddObjectActuator) :
    (∀ T : ObjId, a.m_OriginalObject = some T →
      (UnlinkObject (some T) a).1 = true ∧
      (UnlinkObject (some T) a).2.m_OriginalObject = none) ∧
    (∀ U : ObjId, a.m_OriginalObject ≠ some U → a.m_lastCreatedObject ≠ some U →
      (UnlinkObject (some U) a).1 = false ∧ (UnlinkObject (some U) a).2 = a) := by
  constructor
  · intro T hT
    simp [UnlinkObject, hT]
  · intro U h1 h2
    have h1' : ¬ some U = a.m_OriginalObject := fun h => h1 h.symm
    have h2' : ¬ some U = a.m_lastCreatedObject := fun h => h2 h.symm
    simp [UnlinkObject, h1', h2']

/-- Witness for `UnlinkObject_correct`: the spawned example actuator (template 1, last
created 2), unlinked from its template and from the unrelated object 5. -/
theorem UnlinkObject_correct_witness :
    ((UnlinkObject (some 1) Example.spawned.1).1 = true ∧
      (UnlinkObject (some 1) Example.spawned.1).2.m_OriginalObject = none) ∧
    ((UnlinkObject (some 5) Example.spawned.1).1 = false ∧
      (UnlinkObject (some 5) Example.spawned.1).2 = Example.spawned.1) :=
  ⟨(UnlinkObject_correct Example.spawned.1).1 1 (by decide),
   (UnlinkObject_correct Example.spawned.1).2 5 (by decide) (by decide)⟩

/-! ## InstantAddObject and Update -/

/-- With no template, `InstantAddObject` returns its input. -/
theorem InstantAddObject_none (self : ActId) (replica : ObjId) (a : SCA_AddObjectActuator)
    (w : World) (h : a.m_OriginalObject = none) :
    InstantAddObject self replica a w = (a, w) := by
  simp [InstantAddObject, h]

/-- The actuator after `InstantAddObject`: only the last-created reference can differ. -/
theorem InstantAddObject_fst (self : ActId) (replica : ObjId) (a : SCA_AddObjectActuator)
    (w : World) :
    (InstantAddObject self replica a w).1 =
      match a.m_OriginalObject with
      | none => a
      | some _ => { a with m_lastCreatedObject := some replica } := by
  unfold InstantAddObject
  cases hT : a.m_OriginalObject with
  | none => rfl
  | some T =>
    cases hL : a.m_lastCreatedObject with
    | none => simp [AddReplicaObject, hT]
    | some L => simp [AddReplicaObject, hT]

/-- The world after `InstantAddObject` when the template is `T`: the trace grows by
`spawnCalls`, and the registration sets lose the pair (previous last-created object,
actuator) and gain the pair (replica, actuator). -/
theorem InstantAddObject_snd (self : ActId) (replica : ObjId) (T : ObjId)
    (a : SCA_AddObjectActuator) (w : World) (hT : a.m_OriginalObject = some T) :
    (InstantAddObject self replica a w).2.calls = w.calls ++ spawnCalls self replica T a ∧
    ∀ o x, (InstantAddObject self replica a w).2.registered o x =
      if o = replica ∧ x = self then true
      else if a.m_lastCreatedObject = some o ∧ x = self then false
      else w.registered o x := by
  unfold InstantAddObject spawnCalls
  rw [hT]
  cases hL : a.m_lastCreatedObject with
  | none =>
    simp [AddReplicaObject, setLinearVelocity, setAngularVelocity, ResolveCombinedVelocities,
      Release, GetParent, RegisterActuator]
  | some L =>
    refine ⟨?_, ?_⟩
    · simp [AddReplicaObject, setLinearVelocity, setAngularVelocity,
        ResolveCombinedVelocities, Release, GetParent, RegisterActuator, UnregisterActuator]
    · intro o x
      simp only [AddReplicaObject, setLinearVelocity, setAngularVelocity,
        ResolveCombinedVelocities, Release, RegisterActuator, UnregisterActuator]
      have e : (some L = some o ∧ x = self) ↔ (o = L ∧ x = self) :=
        ⟨fun h => ⟨(Option.some.inj h.1).symm, h.2⟩, fun h => ⟨by rw [h.1], h.2⟩⟩
      simp only [e]

/-- C5: on a negative trigger `Update` changes neither weak reference, neither velocity,
neither frame flag, nor the delay; every registration set and the trace of collaborator
calls are as before, so the scene was not asked for a clone. -/
theorem Update_negative_inert (self : ActId) (replica : ObjId) (a : SCA_AddObjectActuator)
    (w : World) (h : a.IsNegativeEvent = true) :
    (Update self replica a w).2.1.m_OriginalObject = a.m_OriginalObject ∧
    (Update self replica a w).2.1.m_lastCreatedObject = a.m_lastCreatedObject ∧
    (Update self replica a w).2.1.m_linear_velocity = a.m_linear_velocity ∧
    (Update self replica a w).2.1.m_angular_velocity = a.m_angular_velocity ∧
    (Update self replica a w).2.1.m_localLinvFlag = a.m_localLinvFlag ∧
    (Update self replica a w).2.1.m_localAngvFlag = a.m_localAngvFlag ∧
    (Update self replica a w).2.1.m_timeProp = a.m_timeProp ∧
    (Update self replica a w).2.2.registered = w.registered ∧
    (Update self replica a w).2.2.calls = w.calls ∧
    (Update self replica a w).2.2.calls.countP Call.isAddReplicaObject =
      w.calls.countP Call.isAddReplicaObject := by
  simp [Update, h, RemoveAllEvents]

/-- Witness for `Update_negative_inert`: the spawned example actuator with two pending
negative events. -/
theorem Update_negative_inert_witness :
    (AddEvent false (AddEvent false Example.spawned.1)).IsNegativeEvent = true ∧
    (Update 7 3 (AddEvent false (AddEvent false Example.spawned.1))
      Example.spawned.2).2.1.m_lastCreatedObject = some 2 ∧
    (Update 7 3 (AddEvent false (AddEvent false Example.spawned.1))
      Example.spawned.2).2.2.calls = Example.spawned.2.calls :=
  have h := Update_negative_inert 7 3 (AddEvent false (AddEvent false Example.spawned.1))
    Example.spawned.2 (by decide)
  ⟨by decide, h.2.1, h.2.2.2.2.2.2.2.2.1⟩

/-- C6: with template `T` and a trigger that is not negative, one `Update` appends to the
trace exactly one `AddReplicaObject(T, owner, delay)` call, then `setLinearVelocity` on the
clone with the three stored linear components and the linear frame flag,
`setAngularVelocity` with the three stored angular components and the angular frame flag,
and `ResolveCombinedVelocities` with the same two vectors and two flags, then the
registration bookkeeping and the release of the handle; afterwards the last-created
reference names the clone and the actuator is in the clone's registration set. -/
theorem Update_positive_spawns (self : ActId) (replica : ObjId) (T : ObjId)
    (a : SCA_AddObjectActuator) (w : World) (hT : a.m_OriginalObject = some T)
    (hpos : a.IsNegativeEvent = false) :
    (Update self replica a w).2.2.calls =
      w.calls ++
        ([Call.AddReplicaObject a.m_scene T a.GetParent a.m_timeProp,
          Call.setLinearVelocity replica
            { x := a.m_linear_velocity.e0, y := a.m_linear_velocity.e1,
              z := a.m_linear_velocity.e2 }
            a.m_localLinvFlag,
          Call.setAngularVelocity replica
            { x := a.m_angular_velocity.e0, y := a.m_angular_velocity.e1,
              z := a.m_angular_velocity.e2 }
            a.m_localAngvFlag,
          Call.ResolveCombinedVelocities replica
            { x := a.m_linear_velocity.e0, y := a.m_linear_velocity.e1,
              z := a.m_linear_velocity.e2 }
            { x := a.m_angular_velocity.e0, y := a.m_angular_velocity.e1,
              z := a.m_angular_velocity.e2 }
            a.m_localLinvFlag a.m_localAngvFlag] ++
         (match a.m_lastCreatedObject with
          | some last => [Call.UnregisterActuator last self]
          | none => []) ++
         [Call.RegisterActuator replica self, Call.Release replica]) ∧
    (Update self replica a w).2.2.calls.countP Call.isAddReplicaObject =
      w.calls.countP Call.isAddReplicaObject + 1 ∧
    (Update self replica a w).2.1.m_lastCreatedObject = some replica ∧
    (Update self replica a w).2.2.registered replica self = true := by
  have hT' : a.RemoveAllEvents.m_OriginalObject = some T := hT
  have hs := InstantAddObject_snd self replica T a.RemoveAllEvents w hT'
  have hf := InstantAddObject_fst self replica a.RemoveAllEvents w
  rw [hT'] at hf
  have hU : (Update self replica a w).2 = InstantAddObject self replica a.RemoveAllEvents w := by
    simp [Update, hpos]
  rw [hU, hs.1, hs.2, hf]
  refine ⟨rfl, ?_, rfl, by simp⟩
  cases hL : a.m_lastCreatedObject with
  | none =>
    simp [spawnCalls, RemoveAllEvents, hL, List.countP_append, List.countP_cons,
      Call.isAddReplicaObject]
  | some L =>
    simp [spawnCalls, RemoveAllEvents, hL, List.countP_append, List.countP_cons,
      Call.isAddReplicaObject]

/-- Witness for `Update_positive_spawns`: the example actuator `Example.moving` (template
1, owner 0, scene 8, delay 5, local-frame linear velocity (1,2,3), world-frame angular
velocity (4,5,6)) with a burst of three events, the scene returning object 2. -/
theorem Update_positive_spawns_witness :
    (Update 7 2 (AddEvent true (AddEvent false (AddEvent true Example.moving.1)))
      Example.moving.2).2.2.calls =
      [Call.RegisterActuator 1 7,
       Call.AddReplicaObject 8 1 (some 0) 5,
       Call.setLinearVelocity 2 ⟨1, 2, 3⟩ true,
       Call.setAngularVelocity 2 ⟨4, 5, 6⟩ false,
       Call.ResolveCombinedVelocities 2 ⟨1, 2, 3⟩ ⟨4, 5, 6⟩ true false,
       Call.RegisterActuator 2 7,
       Call.Release 2] ∧
    (Update 7 2 (AddEvent true (AddEvent false (AddEvent true Example.moving.1)))
      Example.moving.2).2.2.calls.countP Call.isAddReplicaObject = 1 ∧
    (Update 7 2 (AddEvent true (AddEvent false (AddEvent true Example.moving.1)))
      Example.moving.2).2.1.m_lastCreatedObject = some 2 ∧
    (Update 7 2 (AddEvent true (AddEvent false (AddEvent true Example.moving.1)))
      Example.moving.2).2.2.registered 2 7 = true :=
  Update_positive_spawns 7 2 1
    (AddEvent true (AddEvent false (AddEvent true Example.moving.1)))
    Example.moving.2 (by decide) (by decide)

/-- C7: with template `T`, last-created object `C1` other than `T`, and a clone `C2`
other than both, `InstantAddObject` ends with the last-created reference naming `C2`, the
actuator out of the registration set of `C1` and in that of `C2`, the registration set of
`T` as before, and exactly one more `Release` of `C2` in the trace. -/
theorem InstantAddObject_replaces_lastCreated (self : ActId) (T C1 C2 : ObjId)
    (a : SCA_AddObjectActuator) (w : World) (hT : a.m_OriginalObject = some T)
    (hL : a.m_lastCreatedObject = some C1) (h1 : C1 ≠ T) (h2 : C2 ≠ C1) (h3 : C2 ≠ T) :
    (InstantAddObject self C2 a w).1.m_lastCreatedObject = some C2 ∧
    (InstantAddObject self C2 a w).2.registered C1 self = false ∧
    (InstantAddObject self C2 a w).2.registered C2 self = true ∧
    (InstantAddObject self C2 a w).2.registered T = w.registered T ∧
    (InstantAddObject self C2 a w).2.calls.count (Call.Release C2) =
      w.calls.count (Call.Release C2) + 1 := by
  have hs := InstantAddObject_snd self C2 T a w hT
  have hf := InstantAddObject_fst self C2 a w
  rw [hT] at hf
  rw [hf, hs.1, hs.2, hs.2]
  refine ⟨rfl, ?_, by simp, ?_, ?_⟩
  · have h2' : ¬ C1 = C2 := fun h => h2 h.symm
    simp [hL, h2']
  · funext x
    rw [hs.2]
    have h3' : ¬ T = C2 := fun h => h3 h.symm
    have h1' : ¬ C1 = T := h1
    simp [hL, h3', h1']
  · simp [spawnCalls, hL, List.count_append, List.count_cons]

/-- Witness for `InstantAddObject_replaces_lastCreated`: the spawned example actuator
(template 1, last created 2) spawning once more, the scene returning object 3. -/
theorem InstantAddObject_replaces_lastCreated_witness :
    (InstantAddObject 7 3 Example.spawned.1 Example.spawned.2).1.m_lastCreatedObject =
      some 3 ∧
    (InstantAddObject 7 3 Example.spawned.1 Example.spawned.2).2.registered 2 7 = false ∧
    (InstantAddObject 7 3 Example.spawned.1 Example.spawned.2).2.registered 3 7 = true ∧
    (InstantAddObject 7 3 Example.spawned.1 Example.spawned.2).2.registered 1 =
      Example.spawned.2.registered 1 ∧
    (InstantAddObject 7 3 Example.spawned.1 Example.spawned.2).2.calls.count
      (Call.Release 3) = Example.spawned.2.calls.count (Call.Release 3) + 1 :=
  InstantAddObject_replaces_lastCreated 7 1 2 3 Example.spawned.1 Example.spawned.2
    (by decide) (by decide) (by decide) (by decide) (by decide)

/-- C8: whatever the pending events and whether or not a template is present, `Update`
returns false and leaves no pending event; the events are cleared first, the spawn (when
the trigger is not negative) being `InstantAddObject` run on the actuator whose events
are already cleared. -/
theorem Update_returns_false_and_consumes_events (self : ActId) (replica : ObjId)
    (a : SCA_AddObjectActuator) (w : World) :
    (Update self replica a w).1 = false ∧
    (Update self replica a w).2.1.m_events = [] ∧
    a.RemoveAllEvents.m_events = [] ∧
    (Update self replica a w).2 =
      if a.IsNegativeEvent = true then (a.RemoveAllEvents, w)
      else InstantAddObject self replica a.RemoveAllEvents w := by
  have hf := InstantAddObject_fst self replica a.RemoveAllEvents w
  cases hneg : a.IsNegativeEvent with
  | true => simp [Update, hneg, RemoveAllEvents]
  | false =>
    have hU : (Update self replica a w).2 =
        InstantAddObject self replica a.RemoveAllEvents w := by
      simp [Update, hneg]
    refine ⟨by simp [Update, hneg], ?_, rfl, by simp [hU]⟩
    rw [hU, hf]
    cases hT : a.RemoveAllEvents.m_OriginalObject with
    | none => rfl
    | some T => rfl

/-- C9: with no template, `InstantAddObject` returns the actuator and the world it was
given (no collaborator call, no registration change, no member changed); the scripting
entry point `instantAddObject` does the same and returns `None`; and `Update`, whatever
the trigger, only clears the pending events. -/
theorem InstantAddObject_missing_template_noop (self : ActId) (replica : ObjId)
    (a : SCA_AddObjectActuator) (w : World) (h : a.m_OriginalObject = none) :
    InstantAddObject self replica a w = (a, w) ∧
    (InstantAddObject self replica a w).2.calls = w.calls ∧
    (InstantAddObject self replica a w).2.registered = w.registered ∧
    (InstantAddObject self replica a w).1.m_lastCreatedObject = a.m_lastCreatedObject ∧
    PyInstantAddObject self replica a w = (PyValue.None, a, w) ∧
    Update self replica a w = (false, a.RemoveAllEvents, w) := by
  have h0 := InstantAddObject_none self replica a w h
  have h1 : InstantAddObject self replica a.RemoveAllEvents w = (a.RemoveAllEvents, w) :=
    InstantAddObject_none self replica a.RemoveAllEvents w h
  refine ⟨h0, by rw [h0], by rw [h0], by rw [h0], by simp [PyInstantAddObject, h0], ?_⟩
  cases hneg : a.IsNegativeEvent with
  | true => simp [Update, hneg]
  | false => simp [Update, hneg, h1]

/-- Witness for `InstantAddObject_missing_template_noop`: the spawned example actuator
after its template was destroyed and unlinked (template absent, last created 2), with a
positive event pending. -/
theorem InstantAddObject_missing_template_noop_witness :
    (UnlinkObject (some 1) Example.spawned.1).2.m_OriginalObject = none ∧
    InstantAddObject 7 3 (UnlinkObject (some 1) Example.spawned.1).2 Example.spawned.2 =
      ((UnlinkObject (some 1) Example.spawned.1).2, Example.spawned.2) ∧
    Update 7 3 (AddEvent true (UnlinkObject (some 1) Example.spawned.1).2)
      Example.spawned.2 =
      (false, (AddEvent true (UnlinkObject (some 1) Example.spawned.1).2).RemoveAllEvents,
        Example.spawned.2) :=
  ⟨by decide,
   (InstantAddObject_missing_template_noop 7 3 (UnlinkObject (some 1) Example.spawned.1).2
      Example.spawned.2 (by decide)).1,
   (InstantAddObject_missing_template_noop 7 3
      (AddEvent true (UnlinkObject (some 1) Example.spawned.1).2)
      Example.spawned.2 (by decide)).2.2.2.2.2⟩

/-! ## Replication -/

/-- C10 (counterexample): in the aliased example state both weak references of the
original name object 2, so `X` and `T` are the same object; the replica made at address 9
is registered with that object, hence it is a member of the registration set of `X`. -/
theorem GetReplica_aliased_replica_registered_with_lastCreated :
    Example.aliased.1.m_OriginalObject = some 2 ∧
    Example.aliased.1.m_lastCreatedObject = some 2 ∧
    Example.aliased.2.registered 2 9 = false ∧
    (GetReplica Example.dropEvents 9 Example.aliased.1 Example.aliased.2).1.m_lastCreatedObject
      = none ∧
    (GetReplica Example.dropEvents 9 Example.aliased.1 Example.aliased.2).2.registered 2 9
      = true := by
  decide

/-- C10 (amended): for an actuator at address `self` with template `T` and last-created
object `X`, and a copy allocated at a fresh address `b`, `GetReplica` yields a replica
with the last-created reference absent, template `T`, the same delay, velocities and
flags, registered with `T` and, when `X` is not `T`, not registered with `X`. No
registration of the original changes (the method assigns no member of the original),
and destroying the replica afterwards leaves every registration of the original,
that with `T` included, as it was. -/
theorem GetReplica_isolated (baseProcessReplica : SCA_IActuator → SCA_IActuator)
    (self b : ActId) (T X : ObjId) (a : SCA_AddObjectActuator) (w : World)
    (hT : a.m_OriginalObject = some T) (hX : a.m_lastCreatedObject = some X)
    (hb : b ≠ self) (hfresh : ∀ o, w.registered o b = false) :
    (GetReplica baseProcessReplica b a w).1.m_lastCreatedObject = none ∧
    (GetReplica baseProcessReplica b a w).1.m_OriginalObject = some T ∧
    (GetReplica baseProcessReplica b a w).1.m_timeProp = a.m_timeProp ∧
    (GetReplica baseProcessReplica b a w).1.m_linear_velocity = a.m_linear_velocity ∧
    (GetReplica baseProcessReplica b a w).1.m_angular_velocity = a.m_angular_velocity ∧
    (GetReplica baseProcessReplica b a w).1.m_localLinvFlag = a.m_localLinvFlag ∧
    (GetReplica baseProcessReplica b a w).1.m_localAngvFlag = a.m_localAngvFlag ∧
    (GetReplica baseProcessReplica b a w).2.registered T b = true ∧
    (X ≠ T → (GetReplica baseProcessReplica b a w).2.registered X b = false) ∧
    (∀ o, (GetReplica baseProcessReplica b a w).2.registered o self =
      w.registered o self) ∧
    (∀ o, (dtor b (GetReplica baseProcessReplica b a w).1
        (GetReplica baseProcessReplica b a w).2).registered o self =
      w.registered o self) ∧
    (w.registered T self = true →
      (dtor b (GetReplica baseProcessReplica b a w).1
        (GetReplica baseProcessReplica b a w).2).registered T self = true) := by
  have _ := hX
  have hsb : ¬ self = b := fun h => hb h.symm
  have hA : ∀ o, (GetReplica baseProcessReplica b a w).2.registered o self =
      w.registered o self := by
    intro o
    simp [GetReplica, ProcessReplica, hT, hsb]
  have hD : ∀ o, (dtor b (GetReplica baseProcessReplica b a w).1
        (GetReplica baseProcessReplica b a w).2).registered o self =
      w.registered o self := by
    intro o
    simp [GetReplica, ProcessReplica, dtor, hT, hsb]
  refine ⟨by simp [GetReplica, ProcessReplica], by simp [GetReplica, ProcessReplica, hT],
    by simp [GetReplica, ProcessReplica], by simp [GetReplica, ProcessReplica],
    by simp [GetReplica, ProcessReplica], by simp [GetReplica, ProcessReplica],
    by simp [GetReplica, ProcessReplica], by simp [GetReplica, ProcessReplica, hT], ?_,
    hA, hD, ?_⟩
  · intro hXT
    simp [GetReplica, ProcessReplica, hT, hXT, hfresh]
  · intro hreg
    rw [hD T]
    exact hreg

/-- The replica address 9 is registered nowhere in the spawned example world. -/
theorem spawned_fresh_nine (o : ObjId) : Example.spawned.2.registered o 9 = false := by
  simp [Example.spawned, Example.constructed, ctor, InstantAddObject, AddReplicaObject,
    setLinearVelocity, setAngularVelocity, ResolveCombinedVelocities, Release, World.empty]

/-- Witness for `GetReplica_isolated`: the spawned example actuator (address 7, template
1, last created 2) replicated at address 9. -/
theorem GetReplica_isolated_witness :
    (∀ o, Example.spawned.2.registered o 9 = false) ∧
    (GetReplica Example.dropEvents 9 Example.spawned.1 Example.spawned.2).1.m_lastCreatedObject
      = none ∧
    (GetReplica Example.dropEvents 9 Example.spawned.1 Example.spawned.2).2.registered 1 9
      = true ∧
    (GetReplica Example.dropEvents 9 Example.spawned.1 Example.spawned.2).2.registered 2 9
      = false ∧
    (dtor 9 (GetReplica Example.dropEvents 9 Example.spawned.1 Example.spawned.2).1
      (GetReplica Example.dropEvents 9 Example.spawned.1 Example.spawned.2).2).registered 1 7
      = true :=
  have h := GetReplica_isolated Example.dropEvents 7 9 1 2 Example.spawned.1
    Example.spawned.2 (by decide) (by decide) (by decide) spawned_fresh_nine
  ⟨spawned_fresh_nine, h.1, h.2.2.2.2.2.2.2.1, h.2.2.2.2.2.2.2.2.1 (by decide),
    h.2.2.2.2.2.2.2.2.2.2.2 (by decide)⟩

/-! ## The registration bound along every run -/

/-- A freshly constructed actuator is registered with its template at most. -/
theorem RegisteredWithin_ctor (self : ActId) (gameobj original : Option ObjId)
    (time : Scalar) (scene : SceneId) (linvel : Float3) (linv_local : Bool)
    (angvel : Float3) (angv_local : Bool) (w : World)
    (hfresh : ∀ o, w.registered o self = false) :
    RegisteredWithin self
      (ctor self gameobj original time scene linvel linv_local angvel angv_local w) := by
  intro o ho
  cases original with
  | none =>
    have : w.registered o self = true := ho
    rw [hfresh o] at this
    exact absurd this Bool.false_ne_true
  | some T =>
    left
    by_cases hoT : o = T
    · show some T = some o
      rw [hoT]
    · have : (RegisterActuator T self w).registered o self = true := ho
      simp [hoT, hfresh o] at this

/-- A spawn by `InstantAddObject` keeps the registrations within the two weak references. -/
theorem RegisteredWithin_InstantAddObject (self : ActId) (replica : ObjId)
    (s : SCA_AddObjectActuator × World) (h : RegisteredWithin self s) :
    RegisteredWithin self (InstantAddObject self replica s.1 s.2) := by
  cases hT : s.1.m_OriginalObject with
  | none =>
    rw [InstantAddObject_none self replica s.1 s.2 hT]
    exact h
  | some T =>
    intro o ho
    have hf := InstantAddObject_fst self replica s.1 s.2
    rw [hT] at hf
    rw [(InstantAddObject_snd self replica T s.1 s.2 hT).2] at ho
    rw [hf]
    by_cases h1 : o = replica
    · right
      show some replica = some o
      rw [h1]
    · by_cases h2 : s.1.m_lastCreatedObject = some o
      · simp [h1, h2] at ho
      · simp [h1, h2] at ho
        rcases h o ho with h3 | h3
        · left
          rw [hT] at h3
          exact h3
        · exact absurd h3 h2

/-- The scripting assignment of the template keeps the registrations within the two weak
references. -/
theorem RegisteredWithin_pyattr_set_object (self : ActId) (value : PyValue)
    (s : SCA_AddObjectActuator × World) (h : RegisteredWithin self s) :
    RegisteredWithin self (pyattr_set_object self value s.1 s.2).2 := by
  unfold pyattr_set_object
  cases hc : ConvertPythonToGameObject value true with
  | none => exact h
  | some gameobj =>
    intro o ho
    by_cases h1 : gameobj = some o
    · left
      exact h1
    · right
      have hreg : s.2.registered o self = true ∧ s.1.m_OriginalObject ≠ some o := by
        cases hg : gameobj with
        | none =>
          cases hT : s.1.m_OriginalObject with
          | none => simpa [hg, hT] using ho
          | some T =>
            simp [hg, hT] at ho
            exact ⟨ho.2, fun e => ho.1 (Option.some.inj e).symm⟩
        | some N =>
          have hN : ¬ o = N := fun e => h1 (by rw [hg, e])
          cases hT : s.1.m_OriginalObject with
          | none => simpa [hg, hT, hN] using ho
          | some T =>
            simp [hg, hT, hN] at ho
            exact ⟨ho.2, fun e => ho.1 (Option.some.inj e).symm⟩
      rcases h o hreg.1 with h3 | h3
      · exact absurd h3 hreg.2
      · exact h3

/-- The result of `Relink` when the table yields no object for the template: nothing but the table can
change. -/
theorem Relink_of_none (self : ActId) (obj_map : ObjMap) (a : SCA_AddObjectActuator)
    (w : World) (hr : (ObjMap.index obj_map a.m_OriginalObject).1 = none) :
    Relink self obj_map a w = (a, w, (ObjMap.index obj_map a.m_OriginalObject).2) := by
  simp only [Relink, hr]

/-- The result of `Relink` when the table yields the object `N` for the template. -/
theorem Relink_of_some (self : ActId) (obj_map : ObjMap) (a : SCA_AddObjectActuator)
    (w : World) (N : ObjId) (hr : (ObjMap.index obj_map a.m_OriginalObject).1 = some N) :
    Relink self obj_map a w =
      ({ a with m_OriginalObject := some N },
       RegisterActuator N self
         (match a.m_OriginalObject with
          | some o => UnregisterActuator o self w
          | none => w),
       (ObjMap.index obj_map a.m_OriginalObject).2) := by
  simp only [Relink, hr]

/-- A call of `Relink` keeps the registrations within the two weak references. -/
theorem RegisteredWithin_Relink (self : ActId) (obj_map : ObjMap)
    (s : SCA_AddObjectActuator × World) (h : RegisteredWithin self s) :
    RegisteredWithin self
      ((Relink self obj_map s.1 s.2).1, (Relink self obj_map s.1 s.2).2.1) := by
  cases hr : (ObjMap.index obj_map s.1.m_OriginalObject).1 with
  | none =>
    rw [Relink_of_none self obj_map s.1 s.2 hr]
    exact h
  | some N =>
    rw [Relink_of_some self obj_map s.1 s.2 N hr]
    intro o ho
    by_cases h1 : o = N
    · left
      show some N = some o
      rw [h1]
    · right
      have hreg : s.2.registered o self = true ∧ s.1.m_OriginalObject ≠ some o := by
        cases hT : s.1.m_OriginalObject with
        | none => simpa [hT, h1] using ho
        | some T =>
          simp [hT, h1] at ho
          exact ⟨ho.2, fun e => ho.1 (Option.some.inj e).symm⟩
      rcases h o hreg.1 with h3 | h3
      · exact absurd h3 hreg.2
      · exact h3

/-- The destruction of a scene object keeps the registrations within the two weak
references. -/
theorem RegisteredWithin_DestroyObject (self : ActId) (obj : ObjId)
    (s : SCA_AddObjectActuator × World) (h : RegisteredWithin self s) :
    RegisteredWithin self (DestroyObject self obj s.1 s.2) := by
  intro o ho
  have ho' : o ≠ obj ∧ s.2.registered o self = true := by
    by_cases e : o = obj
    · simp [DestroyObject, e] at ho
    · simp [DestroyObject, e] at ho
      exact ⟨e, ho⟩
  have hne : ¬ some obj = some o := fun e => ho'.1 (Option.some.inj e).symm
  have hu : ((UnlinkObject (some obj) s.1).2.m_OriginalObject = some o ∨
      (UnlinkObject (some obj) s.1).2.m_lastCreatedObject = some o) := by
    unfold UnlinkObject
    by_cases c1 : some obj = s.1.m_OriginalObject
    · rw [if_pos c1]
      rcases h o ho'.2 with h3 | h3
      · exact absurd (c1.trans h3) hne
      · exact Or.inr h3
    · rw [if_neg c1]
      by_cases c2 : some obj = s.1.m_lastCreatedObject
      · rw [if_pos c2]
        rcases h o ho'.2 with h3 | h3
        · exact Or.inl h3
        · exact absurd (c2.trans h3) hne
      · rw [if_neg c2]
        exact h o ho'.2
  unfold DestroyObject
  cases hreg : s.2.registered obj self with
  | true => simpa [hreg] using hu
  | false => simpa [hreg] using h o ho'.2

/-- Every operation keeps the registrations within the two weak references. -/
theorem RegisteredWithin_step (self : ActId) (op : Op) (s : SCA_AddObjectActuator × World)
    (h : RegisteredWithin self s) : RegisteredWithin self (step self op s) := by
  cases op with
  | AddEvent event => exact h
  | Update replica =>
    show RegisteredWithin self (Update self replica s.1 s.2).2
    cases hneg : s.1.IsNegativeEvent with
    | true =>
      have e : (Update self replica s.1 s.2).2 = (s.1.RemoveAllEvents, s.2) := by
        simp [Update, hneg]
      rw [e]
      exact h
    | false =>
      have e : (Update self replica s.1 s.2).2 =
          InstantAddObject self replica s.1.RemoveAllEvents s.2 := by
        simp [Update, hneg]
      rw [e]
      exact RegisteredWithin_InstantAddObject self replica (s.1.RemoveAllEvents, s.2) h
  | InstantAddObject replica => exact RegisteredWithin_InstantAddObject self replica s h
  | SetObject value => exact RegisteredWithin_pyattr_set_object self value s h
  | Relink obj_map => exact RegisteredWithin_Relink self obj_map s h
  | DestroyObject obj => exact RegisteredWithin_DestroyObject self obj s h

/-- Every run keeps the registrations within the two weak references. -/
theorem RegisteredWithin_run (self : ActId) (ops : List Op) :
    ∀ s : SCA_AddObjectActuator × World, RegisteredWithin self s →
      RegisteredWithin self (run self ops s) := by
  induction ops with
  | nil => intro s h; exact h
  | cons op rest ih =>
    intro s h
    exact ih (step self op s) (RegisteredWithin_step self op s h)

/-- Registrations within the two weak references are registrations with at most two
distinct objects. -/
theorem RegisteredWithin_length_le (self : ActId) (s : SCA_AddObjectActuator × World)
    (h : RegisteredWithin self s) (l : List ObjId) (hnd : l.Nodup)
    (hl : ∀ o ∈ l, s.2.registered o self = true) : l.length ≤ 2 := by
  have hsub : l ⊆ s.1.m_OriginalObject.toList ++ s.1.m_lastCreatedObject.toList := by
    intro o ho
    rcases h o (hl o ho) with h3 | h3
    · simp [h3]
    · simp [h3]
  have hlen := (List.subperm_of_subset hnd hsub).length_le
  have h2 : (s.1.m_OriginalObject.toList ++ s.1.m_lastCreatedObject.toList).length ≤ 2 := by
    cases s.1.m_OriginalObject <;> cases s.1.m_lastCreatedObject <;> simp
  exact le_trans hlen h2

/-- C4: start from an actuator constructed at an address registered nowhere and apply any
sequence of operations, looking at the state between two operations (events, updates, scripted spawns, scripting assignment of the
template, relinks, destruction of objects with the unlink notification). Then every
object whose registration set holds the actuator is named by the template reference or
by the last-created reference; any list of distinct such objects has at most two
entries; and a spawn from that state (template present) changes the registration sets
in exactly two places: the pair (previous last-created object, actuator) is removed and
the pair (clone, actuator) is added. -/
theorem registration_bound (self : ActId) (gameobj original : Option ObjId) (time : Scalar)
    (scene : SceneId) (linvel : Float3) (linv_local : Bool) (angvel : Float3)
    (angv_local : Bool) (w : World) (hfresh : ∀ o, w.registered o self = false)
    (ops : List Op) :
    (∀ o, (run self ops (ctor self gameobj original time scene linvel linv_local angvel
        angv_local w)).2.registered o self = true →
      (run self ops (ctor self gameobj original time scene linvel linv_local angvel
        angv_local w)).1.m_OriginalObject = some o ∨
      (run self ops (ctor self gameobj original time scene linvel linv_local angvel
        angv_local w)).1.m_lastCreatedObject = some o) ∧
    (∀ l : List ObjId, l.Nodup →
      (∀ o ∈ l, (run self ops (ctor self gameobj original time scene linvel linv_local
        angvel angv_local w)).2.registered o self = true) → l.length ≤ 2) ∧
    (∀ (replica T : ObjId),
      (run self ops (ctor self gameobj original time scene linvel linv_local angvel
        angv_local w)).1.m_OriginalObject = some T →
      ∀ o x, (InstantAddObject self replica
          (run self ops (ctor self gameobj original time scene linvel linv_local angvel
            angv_local w)).1
          (run self ops (ctor self gameobj original time scene linvel linv_local angvel
            angv_local w)).2).2.registered o x =
        if o = replica ∧ x = self then true
        else if (run self ops (ctor self gameobj original time scene linvel linv_local
          angvel angv_local w)).1.m_lastCreatedObject = some o ∧ x = self then false
        else (run self ops (ctor self gameobj original time scene linvel linv_local angvel
          angv_local w)).2.registered o x) := by
  have hinv := RegisteredWithin_run self ops _
    (RegisteredWithin_ctor self gameobj original time scene linvel linv_local angvel
      angv_local w hfresh)
  refine ⟨hinv, ?_, ?_⟩
  · intro l hnd hl
    exact RegisteredWithin_length_le self _ hinv l hnd hl
  · intro replica T hT
    exact (InstantAddObject_snd self replica T _ _ hT).2

/-- Witness for `registration_bound`: the example actuator (address 7, template 1)
constructed in the empty world, then a spawn returning object 2, the assignment of
object 2 as template, a spawn returning object 3 and the destruction of object 2. -/
theorem registration_bound_witness :
    (∀ o, World.empty.registered o 7 = false) ∧
    (∀ o, (run 7 [Op.InstantAddObject 2, Op.SetObject (PyValue.GameObject 2),
        Op.InstantAddObject 3, Op.DestroyObject 2]
        (ctor 7 (some 0) (some 1) 0 0 ⟨1, 0, 0⟩ false ⟨0, 0, 0⟩ false
          World.empty)).2.registered o 7 = true →
      (run 7 [Op.InstantAddObject 2, Op.SetObject (PyValue.GameObject 2),
        Op.InstantAddObject 3, Op.DestroyObject 2]
        (ctor 7 (some 0) (some 1) 0 0 ⟨1, 0, 0⟩ false ⟨0, 0, 0⟩ false
          World.empty)).1.m_OriginalObject = some o ∨
      (run 7 [Op.InstantAddObject 2, Op.SetObject (PyValue.GameObject 2),
        Op.InstantAddObject 3, Op.DestroyObject 2]
        (ctor 7 (some 0) (some 1) 0 0 ⟨1, 0, 0⟩ false ⟨0, 0, 0⟩ false
          World.empty)).1.m_lastCreatedObject = some o) :=
  ⟨fun _ => rfl,
   (registration_bound 7 (some 0) (some 1) 0 0 ⟨1, 0, 0⟩ false ⟨0, 0, 0⟩ false World.empty
      (fun _ => rfl)
      [Op.InstantAddObject 2, Op.SetObject (PyValue.GameObject 2), Op.InstantAddObject 3,
        Op.DestroyObject 2]).1⟩

/-! ## Relink -/

/-- The lookup `obj_map[key]` when the table has an entry for the key. -/
theorem ObjMap.index_of_some (obj_map : ObjMap) (key v : Ptr) (h : obj_map key = some v) :
    ObjMap.index obj_map key = (v, obj_map) := by
  simp only [ObjMap.index, h]

/-- The lookup `obj_map[key]` when the table has no entry for the key. -/
theorem ObjMap.index_of_none (obj_map : ObjMap) (key : Ptr) (h : obj_map key = none) :
    ObjMap.index obj_map key =
      (none, fun k => if k = key then some none else obj_map k) := by
  simp only [ObjMap.index, h]

/-- The table after `Relink` is the table after the lookup of the template. -/
theorem Relink_table (self : ActId) (obj_map : ObjMap) (a : SCA_AddObjectActuator)
    (w : World) :
    (Relink self obj_map a w).2.2 = (ObjMap.index obj_map a.m_OriginalObject).2 := by
  cases hr : (ObjMap.index obj_map a.m_OriginalObject).1 with
  | none => rw [Relink_of_none self obj_map a w hr]
  | some N => rw [Relink_of_some self obj_map a w N hr]

/-- C11: when the template reference names `T_old` and the table sends `T_old` to the
object `T_new`, `Relink` ends with the template reference naming `T_new`, the actuator
in the registration set of `T_new` and, when `T_new` is another object than `T_old`,
out of the registration set of `T_old`; the two bookkeeping calls are the unregistration
from `T_old` followed by the registration with `T_new`. -/
theorem Relink_retargets (self : ActId) (T_old T_new : ObjId) (obj_map : ObjMap)
    (a : SCA_AddObjectActuator) (w : World) (hT : a.m_OriginalObject = some T_old)
    (hm : obj_map (some T_old) = some (some T_new)) :
    (Relink self obj_map a w).1.m_OriginalObject = some T_new ∧
    (T_new ≠ T_old → (Relink self obj_map a w).2.1.registered T_old self = false) ∧
    (Relink self obj_map a w).2.1.registered T_new self = true ∧
    (Relink self obj_map a w).2.1.calls =
      w.calls ++ [Call.UnregisterActuator T_old self, Call.RegisterActuator T_new self] := by
  have hr : (ObjMap.index obj_map a.m_OriginalObject).1 = some T_new := by
    rw [hT, ObjMap.index_of_some obj_map (some T_old) (some T_new) hm]
  rw [Relink_of_some self obj_map a w T_new hr, hT]
  refine ⟨rfl, ?_, by simp, by simp⟩
  intro hne
  have hne' : ¬ T_old = T_new := fun e => hne e.symm
  simp [hne']

/-- Witness for `Relink_retargets`: the spawned example actuator (template 1) relinked
with the table object 1 ↦ object 4. -/
theorem Relink_retargets_witness :
    (Relink 7 Example.oneToFour Example.spawned.1 Example.spawned.2).1.m_OriginalObject =
      some 4 ∧
    ((4 : ObjId) ≠ 1 →
      (Relink 7 Example.oneToFour Example.spawned.1 Example.spawned.2).2.1.registered 1 7 =
        false) ∧
    (Relink 7 Example.oneToFour Example.spawned.1 Example.spawned.2).2.1.registered 4 7 =
      true ∧
    (Relink 7 Example.oneToFour Example.spawned.1 Example.spawned.2).2.1.calls =
      Example.spawned.2.calls ++ [Call.UnregisterActuator 1 7, Call.RegisterActuator 4 7] :=
  Relink_retargets 7 1 4 Example.oneToFour Example.spawned.1 Example.spawned.2
    (by decide) (by decide)

/-- C12: when the table has no entry keyed by the current template reference (an object
or the null reference; the empty table is one such table), `Relink` returns the actuator
unchanged in every member and the world unchanged: every registration set and the trace
of collaborator calls are as before. -/
theorem Relink_no_match_inert (self : ActId) (obj_map : ObjMap) (a : SCA_AddObjectActuator)
    (w : World) (h : obj_map a.m_OriginalObject = none) :
    (Relink self obj_map a w).1 = a ∧
    (Relink self obj_map a w).1.m_OriginalObject = a.m_OriginalObject ∧
    (Relink self obj_map a w).1.m_lastCreatedObject = a.m_lastCreatedObject ∧
    (Relink self obj_map a w).2.1 = w ∧
    (Relink self obj_map a w).2.1.registered = w.registered ∧
    (Relink self obj_map a w).2.1.calls = w.calls := by
  have hr : (ObjMap.index obj_map a.m_OriginalObject).1 = none := by
    rw [ObjMap.index_of_none obj_map a.m_OriginalObject h]
  rw [Relink_of_none self obj_map a w hr]
  exact ⟨rfl, rfl, rfl, rfl, rfl, rfl⟩

/-- Witness for `Relink_no_match_inert`: the spawned example actuator relinked with the
empty table. -/
theorem Relink_no_match_inert_witness :
    Example.emptyTable Example.spawned.1.m_OriginalObject = none ∧
    (Relink 7 Example.emptyTable Example.spawned.1 Example.spawned.2).1 =
      Example.spawned.1 ∧
    (Relink 7 Example.emptyTable Example.spawned.1 Example.spawned.2).2.1 =
      Example.spawned.2 :=
  have h := Relink_no_match_inert 7 Example.emptyTable Example.spawned.1 Example.spawned.2 rfl
  ⟨rfl, h.1, h.2.2.2.1⟩

/-- C18: the lookup made by `Relink` inserts. When the caller's table has no entry keyed
by the current template reference (an object or the null reference), the table afterwards
has an entry sending that key to null and agrees with the table before on every other
key; when the table has such an entry, it is returned as it was. -/
theorem Relink_inserting_lookup (self : ActId) (obj_map : ObjMap)
    (a : SCA_AddObjectActuator) (w : World) :
    (obj_map a.m_OriginalObject = none →
      (Relink self obj_map a w).2.2 a.m_OriginalObject = some none ∧
      ∀ k, k ≠ a.m_OriginalObject → (Relink self obj_map a w).2.2 k = obj_map k) ∧
    (∀ v, obj_map a.m_OriginalObject = some v → (Relink self obj_map a w).2.2 = obj_map) := by
  rw [Relink_table]
  constructor
  · intro h
    rw [ObjMap.index_of_none obj_map a.m_OriginalObject h]
    refine ⟨by simp, ?_⟩
    intro k hk
    simp [hk]
  · intro v h
    rw [ObjMap.index_of_some obj_map a.m_OriginalObject v h]

/-- Witness for `Relink_inserting_lookup`: the spawned example actuator (template 1)
relinked with the empty table, which gains the entry object 1 ↦ null, and with the table
object 1 ↦ object 4, which stays as it is. -/
theorem Relink_inserting_lookup_witness :
    ((Relink 7 Example.emptyTable Example.spawned.1 Example.spawned.2).2.2
        Example.spawned.1.m_OriginalObject = some none ∧
      ∀ k, k ≠ Example.spawned.1.m_OriginalObject →
        (Relink 7 Example.emptyTable Example.spawned.1 Example.spawned.2).2.2 k =
          Example.emptyTable k) ∧
    (Relink 7 Example.oneToFour Example.spawned.1 Example.spawned.2).2.2 =
      Example.oneToFour :=
  ⟨(Relink_inserting_lookup 7 Example.emptyTable Example.spawned.1 Example.spawned.2).1 rfl,
   (Relink_inserting_lookup 7 Example.oneToFour Example.spawned.1 Example.spawned.2).2
      (some 4) (by decide)⟩

/-! ## Scripting assignment of the template -/

/-- C14: a value the conversion rejects makes `pyattr_set_object` return
`PY_SET_ATTR_FAIL` with the actuator and the world (every registration set, the trace)
untouched; a value of the wrong kind is such a value. A value the conversion accepts as
`gameobj` (absent for `None`) makes it return `PY_SET_ATTR_SUCCESS` with the template
reference equal to `gameobj`, the last-created reference as before, the unregistration
from the old template (if any) followed by the registration with the new one (if any) as
the only calls, and the registration sets changed in just those two places. -/
theorem pyattr_set_object_atomic (self : ActId) (value : PyValue)
    (a : SCA_AddObjectActuator) (w : World) :
    (ConvertPythonToGameObject value true = none →
      pyattr_set_object self value a w = (PySetAttrResult.PY_SET_ATTR_FAIL, a, w)) ∧
    (∀ tag, ConvertPythonToGameObject (PyValue.Other tag) true = none) ∧
    ConvertPythonToGameObject PyValue.None true = some none ∧
    (∀ gameobj, ConvertPythonToGameObject value true = some gameobj →
      (pyattr_set_object self value a w).1 = PySetAttrResult.PY_SET_ATTR_SUCCESS ∧
      (pyattr_set_object self value a w).2.1.m_OriginalObject = gameobj ∧
      (pyattr_set_object self value a w).2.1.m_lastCreatedObject = a.m_lastCreatedObject ∧
      (pyattr_set_object self value a w).2.2.calls =
        w.calls ++
          (match a.m_OriginalObject with
           | some o => [Call.UnregisterActuator o self]
           | none => []) ++
          (match gameobj with
           | some o => [Call.RegisterActuator o self]
           | none => []) ∧
      (∀ o x, (pyattr_set_object self value a w).2.2.registered o x =
        if gameobj = some o ∧ x = self then true
        else if a.m_OriginalObject = some o ∧ x = self then false
        else w.registered o x)) := by
  refine ⟨?_, fun _ => rfl, rfl, ?_⟩
  · intro h
    simp only [pyattr_set_object, h]
  · intro gameobj h
    have e : pyattr_set_object self value a w =
        (PySetAttrResult.PY_SET_ATTR_SUCCESS, { a with m_OriginalObject := gameobj },
          (match gameobj with
           | some o => RegisterActuator o self
               (match a.m_OriginalObject with
                | some o => UnregisterActuator o self w
                | none => w)
           | none =>
               (match a.m_OriginalObject with
                | some o => UnregisterActuator o self w
                | none => w))) := by
      simp only [pyattr_set_object, h]
      cases gameobj <;> rfl
    rw [e]
    refine ⟨rfl, rfl, rfl, ?_, ?_⟩
    · cases gameobj <;> cases a.m_OriginalObject <;> simp
    · intro o x
      cases gameobj with
      | none =>
        cases hT : a.m_OriginalObject with
        | none => simp
        | some T =>
          have e1 : (some T = some o ∧ x = self) ↔ (o = T ∧ x = self) :=
            ⟨fun h => ⟨(Option.some.inj h.1).symm, h.2⟩, fun h => ⟨by rw [h.1], h.2⟩⟩
          simp only [registered_UnregisterActuator, e1]
          simp
      | some N =>
        have e2 : (some N = some o ∧ x = self) ↔ (o = N ∧ x = self) :=
          ⟨fun h => ⟨(Option.some.inj h.1).symm, h.2⟩, fun h => ⟨by rw [h.1], h.2⟩⟩
        cases hT : a.m_OriginalObject with
        | none => simp only [registered_RegisterActuator, e2]; simp
        | some T =>
          have e1 : (some T = some o ∧ x = self) ↔ (o = T ∧ x = self) :=
            ⟨fun h => ⟨(Option.some.inj h.1).symm, h.2⟩, fun h => ⟨by rw [h.1], h.2⟩⟩
          simp only [registered_RegisterActuator, registered_UnregisterActuator, e1, e2]

/-- Witness for `pyattr_set_object_atomic`: the spawned example actuator (template 1)
assigned a value of the wrong kind, then the proxy of object 4. -/
theorem pyattr_set_object_atomic_witness :
    pyattr_set_object 7 (PyValue.Other 0) Example.spawned.1 Example.spawned.2 =
      (PySetAttrResult.PY_SET_ATTR_FAIL, Example.spawned.1, Example.spawned.2) ∧
    (pyattr_set_object 7 (PyValue.GameObject 4) Example.spawned.1 Example.spawned.2).1 =
      PySetAttrResult.PY_SET_ATTR_SUCCESS ∧
    (pyattr_set_object 7 (PyValue.GameObject 4) Example.spawned.1
      Example.spawned.2).2.1.m_OriginalObject = some 4 :=
  ⟨(pyattr_set_object_atomic 7 (PyValue.Other 0) Example.spawned.1 Example.spawned.2).1 rfl,
   ((pyattr_set_object_atomic 7 (PyValue.GameObject 4) Example.spawned.1
      Example.spawned.2).2.2.2 (some 4) rfl).1,
   ((pyattr_set_object_atomic 7 (PyValue.GameObject 4) Example.spawned.1
      Example.spawned.2).2.2.2 (some 4) rfl).2.1⟩

/-! ## Construction, the frame of a spawn, destruction -/

/-- C17: the constructor, run at an address that is registered nowhere, yields an
actuator whose template reference is the given one, whose last-created reference is
absent, whose delay, scene, owner, velocity components and frame flags are the arguments,
with no pending event; the actuator is in the registration set of an object exactly when
that object is the given template. -/
theorem ctor_post_state (self : ActId) (gameobj original : Option ObjId) (time : Scalar)
    (scene : SceneId) (linvel : Float3) (linv_local : Bool) (angvel : Float3)
    (angv_local : Bool) (w : World) (hfresh : ∀ o, w.registered o self = false) :
    (ctor self gameobj original time scene linvel linv_local angvel angv_local
      w).1.m_OriginalObject = original ∧
    (ctor self gameobj original time scene linvel linv_local angvel angv_local
      w).1.m_lastCreatedObject = none ∧
    (ctor self gameobj original time scene linvel linv_local angvel angv_local
      w).1.m_timeProp = time ∧
    (ctor self gameobj original time scene linvel linv_local angvel angv_local
      w).1.m_linear_velocity.e0 = linvel.e0 ∧
    (ctor self gameobj original time scene linvel linv_local angvel angv_local
      w).1.m_linear_velocity.e1 = linvel.e1 ∧
    (ctor self gameobj original time scene linvel linv_local angvel angv_local
      w).1.m_linear_velocity.e2 = linvel.e2 ∧
    (ctor self gameobj original time scene linvel linv_local angvel angv_local
      w).1.m_angular_velocity.e0 = angvel.e0 ∧
    (ctor self gameobj original time scene linvel linv_local angvel angv_local
      w).1.m_angular_velocity.e1 = angvel.e1 ∧
    (ctor self gameobj original time scene linvel linv_local angvel angv_local
      w).1.m_angular_velocity.e2 = angvel.e2 ∧
    (ctor self gameobj original time scene linvel linv_local angvel angv_local
      w).1.m_localLinvFlag = linv_local ∧
    (ctor self gameobj original time scene linvel linv_local angvel angv_local
      w).1.m_localAngvFlag = angv_local ∧
    (ctor self gameobj original time scene linvel linv_local angvel angv_local
      w).1.m_scene = scene ∧
    (ctor self gameobj original time scene linvel linv_local angvel angv_local
      w).1.GetParent = gameobj ∧
    (ctor self gameobj original time scene linvel linv_local angvel angv_local
      w).1.m_events = [] ∧
    (∀ o, (ctor self gameobj original time scene linvel linv_local angvel angv_local
      w).2.registered o self = true ↔ original = some o) := by
  refine ⟨rfl, rfl, rfl, rfl, rfl, rfl, rfl, rfl, rfl, rfl, rfl, rfl, rfl, rfl, ?_⟩
  intro o
  cases original with
  | none =>
    show w.registered o self = true ↔ none = some o
    rw [hfresh o]
    simp
  | some T =>
    show (RegisterActuator T self w).registered o self = true ↔ some T = some o
    by_cases h : o = T
    · simp [h]
    · have h' : ¬ T = o := fun e => h e.symm
      simp [h, h', hfresh o]

/-- Witness for `ctor_post_state`: the example actuator built at address 7 for template
object 1 in the empty world. -/
theorem ctor_post_state_witness :
    (∀ o, World.empty.registered o 7 = false) ∧
    Example.constructed.1.m_OriginalObject = some 1 ∧
    Example.constructed.1.m_lastCreatedObject = none ∧
    (∀ o, Example.constructed.2.registered o 7 = true ↔ some 1 = some o) :=
  have h := ctor_post_state 7 (some 0) (some 1) 0 0 ⟨1, 0, 0⟩ false ⟨0, 0, 0⟩ false
    World.empty (fun _ => rfl)
  ⟨fun _ => rfl, h.1, h.2.1, h.2.2.2.2.2.2.2.2.2.2.2.2.2.2⟩

/-- C19: whatever the state, `InstantAddObject` returns an actuator with the same
template reference, delay, velocities, frame flags, scene, owner and pending events;
it equals the actuator before except possibly in the last-created reference. -/
theorem InstantAddObject_frame (self : ActId) (replica : ObjId) (a : SCA_AddObjectActuator)
    (w : World) :
    (InstantAddObject self replica a w).1.m_OriginalObject = a.m_OriginalObject ∧
    (InstantAddObject self replica a w).1.m_timeProp = a.m_timeProp ∧
    (InstantAddObject self replica a w).1.m_linear_velocity = a.m_linear_velocity ∧
    (InstantAddObject self replica a w).1.m_angular_velocity = a.m_angular_velocity ∧
    (InstantAddObject self replica a w).1.m_localLinvFlag = a.m_localLinvFlag ∧
    (InstantAddObject self replica a w).1.m_localAngvFlag = a.m_localAngvFlag ∧
    (InstantAddObject self replica a w).1.m_scene = a.m_scene ∧
    (InstantAddObject self replica a w).1.GetParent = a.GetParent ∧
    (InstantAddObject self replica a w).1.m_events = a.m_events ∧
    (InstantAddObject self replica a w).1.IsNegativeEvent = a.IsNegativeEvent ∧
    (InstantAddObject self replica a w).1 =
      { a with m_lastCreatedObject :=
          (InstantAddObject self replica a w).1.m_lastCreatedObject } := by
  have key : ∃ l, (InstantAddObject self replica a w).1 =
      { a with m_lastCreatedObject := l } := by
    rw [InstantAddObject_fst]
    split
    · exact ⟨a.m_lastCreatedObject, rfl⟩
    · exact ⟨some replica, rfl⟩
  obtain ⟨l, hl⟩ := key
  rw [hl]
  exact ⟨rfl, rfl, rfl, rfl, rfl, rfl, rfl, rfl, rfl, rfl, rfl⟩

/-- A copy made by `GetReplica` at an address registered nowhere is registered with its
template at most. -/
theorem RegisteredWithin_GetReplica (baseProcessReplica : SCA_IActuator → SCA_IActuator)
    (self : ActId) (a : SCA_AddObjectActuator) (w : World)
    (hfresh : ∀ o, w.registered o self = false) :
    RegisteredWithin self (GetReplica baseProcessReplica self a w) := by
  intro o ho
  left
  cases hT : a.m_OriginalObject with
  | none =>
    simp [GetReplica, ProcessReplica, hT, hfresh o] at ho
  | some T =>
    by_cases h : o = T
    · simp [GetReplica, ProcessReplica, hT, h]
    · simp [GetReplica, ProcessReplica, hT, h, hfresh o] at ho

/-- Every reachable state keeps the registrations of the actuator within its two weak
references. -/
theorem RegisteredWithin_of_Reachable (baseProcessReplica : SCA_IActuator → SCA_IActuator)
    (self : ActId) (s : SCA_AddObjectActuator × World)
    (h : Reachable baseProcessReplica self s) : RegisteredWithin self s := by
  induction h with
  | constructed gameobj original time scene linvel linv_local angvel angv_local w hfresh =>
    exact RegisteredWithin_ctor self gameobj original time scene linvel linv_local angvel
      angv_local w hfresh
  | madeAsReplica a w hfresh =>
    exact RegisteredWithin_GetReplica baseProcessReplica self a w hfresh
  | afterOp op s _ ih => exact RegisteredWithin_step self op s ih
  | afterReplication b s hb _ ih =>
    intro o ho
    have hsb : ¬ self = b := fun e => hb e.symm
    have e : (GetReplica baseProcessReplica b s.1 s.2).2.registered o self =
        s.2.registered o self := by
      cases hT : s.1.m_OriginalObject with
      | none => simp [GetReplica, ProcessReplica, hT]
      | some T => simp [GetReplica, ProcessReplica, hT, hsb]
    have ho' : s.2.registered o self = true := by
      rw [← e]
      exact ho
    exact ih o ho'
  | afterElsewhere s w hsame _ ih =>
    intro o ho
    have ho' : s.2.registered o self = true := by
      rw [← hsame o]
      exact ho
    exact ih o ho'

/-- The world after the destructor: the trace grows by `dtorCalls`, and the actuator
leaves the registration sets of the objects its two weak references name. -/
theorem dtor_world (self : ActId) (a : SCA_AddObjectActuator) (w : World) :
    (dtor self a w).calls = w.calls ++ dtorCalls self a ∧
    ∀ o x, (dtor self a w).registered o x =
      if a.m_lastCreatedObject = some o ∧ x = self then false
      else if a.m_OriginalObject = some o ∧ x = self then false
      else w.registered o x := by
  have e : ∀ (T o : ObjId) (x : ActId),
      (some T = some o ∧ x = self) ↔ (o = T ∧ x = self) := fun T o x =>
    ⟨fun h => ⟨(Option.some.inj h.1).symm, h.2⟩, fun h => ⟨by rw [h.1], h.2⟩⟩
  unfold dtor dtorCalls
  cases a.m_OriginalObject with
  | none =>
    cases a.m_lastCreatedObject with
    | none => simp
    | some L =>
      refine ⟨by simp, ?_⟩
      intro o x
      simp only [registered_UnregisterActuator, e]
      simp
  | some T =>
    cases a.m_lastCreatedObject with
    | none =>
      refine ⟨by simp, ?_⟩
      intro o x
      simp only [registered_UnregisterActuator, e]
      simp
    | some L =>
      refine ⟨by simp, ?_⟩
      intro o x
      simp only [registered_UnregisterActuator, e]

/-- C15: in every reachable state, destroying the actuator makes exactly the
unregistration calls for the template and for the last-created object (each when
present), and afterwards the registration set of no object holds the actuator. -/
theorem dtor_leaves_no_registration (baseProcessReplica : SCA_IActuator → SCA_IActuator)
    (self : ActId) (s : SCA_AddObjectActuator × World)
    (h : Reachable baseProcessReplica self s) :
    (dtor self s.1 s.2).calls =
      s.2.calls ++
        (match s.1.m_OriginalObject with
         | some o => [Call.UnregisterActuator o self]
         | none => []) ++
        (match s.1.m_lastCreatedObject with
         | some o => [Call.UnregisterActuator o self]
         | none => []) ∧
    (∀ o, (dtor self s.1 s.2).registered o self = false) := by
  have hinv := RegisteredWithin_of_Reachable baseProcessReplica self s h
  have hw := dtor_world self s.1 s.2
  refine ⟨?_, ?_⟩
  · rw [hw.1, dtorCalls, List.append_assoc]
  · intro o
    rw [hw.2]
    by_cases h1 : s.1.m_lastCreatedObject = some o
    · simp [h1]
    · by_cases h2 : s.1.m_OriginalObject = some o
      · simp [h2]
      · simp only [h1, h2, false_and, if_false]
        cases hreg : s.2.registered o self with
        | false => rfl
        | true => exact absurd (hinv o hreg) (fun h3 => h3.elim h2 h1)

/-- The example state `Example.lived` is reachable. -/
theorem lived_reachable : Reachable Example.dropEvents 7 Example.lived :=
  Reachable.afterOp (Op.DestroyObject 2) _
    (Reachable.afterReplication 9 Example.afterSpawns (by decide)
      (Reachable.afterOp (Op.InstantAddObject 3) _
        (Reachable.afterOp (Op.SetObject (PyValue.GameObject 2)) _
          (Reachable.afterOp (Op.InstantAddObject 2) _
            (Reachable.constructed (some 0) (some 1) 0 0 ⟨1, 0, 0⟩ false ⟨0, 0, 0⟩ false
              World.empty (fun _ => rfl))))))

/-- Witness for `dtor_leaves_no_registration`: the reachable example state
`Example.lived`, in which the template reference names the destroyed object 2 and the
last-created reference names object 3. -/
theorem dtor_leaves_no_registration_witness :
    Reachable Example.dropEvents 7 Example.lived ∧
    (dtor 7 Example.lived.1 Example.lived.2).calls =
      Example.lived.2.calls ++
        (match Example.lived.1.m_OriginalObject with
         | some o => [Call.UnregisterActuator o 7]
         | none => []) ++
        (match Example.lived.1.m_lastCreatedObject with
         | some o => [Call.UnregisterActuator o 7]
         | none => []) ∧
    (∀ o, (dtor 7 Example.lived.1 Example.lived.2).registered o 7 = false) :=
  ⟨lived_reachable,
   dtor_leaves_no_registration Example.dropEvents 7 Example.lived lived_reachable⟩

/-! ## The scripting surface -/

/-- The getter behind an entry of the attribute table looks at nothing but the member
recorded for it. -/
theorem GetFunction_call_reads (a b : SCA_AddObjectActuator) :
    (a.m_OriginalObject = b.m_OriginalObject →
      GetFunction.call GetFunction.pyattr_get_object a =
        GetFunction.call GetFunction.pyattr_get_object b) ∧
    (a.m_lastCreatedObject = b.m_lastCreatedObject →
      GetFunction.call GetFunction.pyattr_get_objectLastCreated a =
        GetFunction.call GetFunction.pyattr_get_objectLastCreated b) := by
  constructor
  · intro h
    simp only [GetFunction.call, pyattr_get_object, h]
  · intro h
    simp only [GetFunction.call, pyattr_get_objectLastCreated, h]

/-- The setter behind the `object` entry assigns nothing but the template reference. -/
theorem SetFunction_call_writes (self : ActId) (value : PyValue)
    (a : SCA_AddObjectActuator) (w : World) :
    (SetFunction.call SetFunction.pyattr_set_object self value a w).2.1 =
      { a with m_OriginalObject :=
          (SetFunction.call SetFunction.pyattr_set_object self value a w).2.1.m_OriginalObject }
    := by
  simp only [SetFunction.call, pyattr_set_object]
  cases ConvertPythonToGameObject value true with
  | none => rfl
  | some gameobj => rfl

/-- C16 (counterexample): no entry of the attribute table reads or writes either of the
two frame flags; the five entries are bound to the template reference, the last-created
reference, the delay and the two velocity vectors. -/
theorem Attributes_omit_frame_flags :
    Attributes.map PyAttributeDef.reads =
      [Member.m_OriginalObject, Member.m_lastCreatedObject, Member.m_timeProp,
       Member.m_linear_velocity, Member.m_angular_velocity] ∧
    readable Member.m_localLinvFlag = false ∧
    writable Member.m_localLinvFlag = false ∧
    readable Member.m_localAngvFlag = false ∧
    writable Member.m_localAngvFlag = false := by
  decide

/-- C16 (amended): the attribute table exposes, under the names `object`,
`objectLastCreated`, `time`, `linearVelocity` and `angularVelocity`, the template
reference for reading and writing (through `pyattr_get_object` and `pyattr_set_object`),
the last-created reference for reading only, and the delay and both velocity vectors for
reading and writing; the method table has the single entry `instantAddObject`, which
takes no argument, returns `None` and otherwise does exactly what `InstantAddObject`
does. -/
theorem scripting_surface :
    Attributes.map PyAttributeDef.name =
      ["object", "objectLastCreated", "time", "linearVelocity", "angularVelocity"] ∧
    Attributes.head? =
      some (PyAttributeDef.KX_PYATTRIBUTE_RW_FUNCTION "object"
        GetFunction.pyattr_get_object SetFunction.pyattr_set_object) ∧
    (readable Member.m_OriginalObject = true ∧ writable Member.m_OriginalObject = true) ∧
    (readable Member.m_lastCreatedObject = true ∧
      writable Member.m_lastCreatedObject = false) ∧
    (readable Member.m_timeProp = true ∧ writable Member.m_timeProp = true) ∧
    (readable Member.m_linear_velocity = true ∧
      writable Member.m_linear_velocity = true) ∧
    (readable Member.m_angular_velocity = true ∧
      writable Member.m_angular_velocity = true) ∧
    (∀ a, GetFunction.call GetFunction.pyattr_get_object a = pyattr_get_object a) ∧
    (∀ a, GetFunction.call GetFunction.pyattr_get_objectLastCreated a =
      pyattr_get_objectLastCreated a) ∧
    (∀ self value a w, SetFunction.call SetFunction.pyattr_set_object self value a w =
      pyattr_set_object self value a w) ∧
    Methods =
      [{ ml_name := "instantAddObject", ml_meth := PyCFunction.sPyInstantAddObject,
         ml_flags := MethFlags.METH_NOARGS }] ∧
    (∀ self replica a w,
      PyCFunction.call PyCFunction.sPyInstantAddObject self replica a w =
        (PyValue.None, (InstantAddObject self replica a w).1,
          (InstantAddObject self replica a w).2)) := by
  refine ⟨rfl, rfl, by decide, by decide, by decide, by decide, by decide,
    fun _ => rfl, fun _ => rfl, fun _ _ _ _ => rfl, rfl, fun _ _ _ _ => rfl⟩

/-! ## One registration per reference -/

/-- The outstanding registrations after a longer trace, from those after its first part. -/
theorem entries_append (obj : ObjId) (act : ActId) (cs ds : List Call) :
    entries obj act (cs ++ ds) =
      ds.foldl
        (fun n c =>
          if c = Call.RegisterActuator obj act then n + 1
          else if c = Call.UnregisterActuator obj act then n - 1
          else n)
        (entries obj act cs) := by
  simp [entries, List.foldl_append]

/-- The constructor leaves a registration behind the template reference. -/
theorem references_le_ctor (self : ActId) (gameobj original : Option ObjId)
    (time : Scalar) (scene : SceneId) (linvel : Float3) (linv_local : Bool)
    (angvel : Float3) (angv_local : Bool) (w : World) (o : ObjId) :
    references (ctor self gameobj original time scene linvel linv_local angvel
        angv_local w).1 o ≤
      entries o self (ctor self gameobj original time scene linvel linv_local angvel
        angv_local w).2.calls := by
  cases original with
  | none => simp [ctor, references]
  | some T =>
    simp only [ctor, references, calls_RegisterActuator, entries_append]
    by_cases h : T = o
    · simp [h]
    · simp [h]

/-- The copy made by `GetReplica` leaves a registration behind its template reference. -/
theorem references_le_GetReplica (baseProcessReplica : SCA_IActuator → SCA_IActuator)
    (self : ActId) (a : SCA_AddObjectActuator) (w : World) (o : ObjId) :
    references (GetReplica baseProcessReplica self a w).1 o ≤
      entries o self (GetReplica baseProcessReplica self a w).2.calls := by
  cases hT : a.m_OriginalObject with
  | none => simp [GetReplica, ProcessReplica, references, hT]
  | some T =>
    simp only [GetReplica, ProcessReplica, references, hT, calls_RegisterActuator,
      entries_append]
    by_cases h : T = o
    · simp [h]
    · simp [h]

/-- A spawn keeps a registration behind every reference. -/
theorem references_le_InstantAddObject (self : ActId) (replica : ObjId)
    (s : SCA_AddObjectActuator × World)
    (h : ∀ o, references s.1 o ≤ entries o self s.2.calls) (o : ObjId) :
    references (InstantAddObject self replica s.1 s.2).1 o ≤
      entries o self (InstantAddObject self replica s.1 s.2).2.calls := by
  cases hT : s.1.m_OriginalObject with
  | none =>
    rw [InstantAddObject_none self replica s.1 s.2 hT]
    exact h o
  | some T =>
    have hf := InstantAddObject_fst self replica s.1 s.2
    rw [hT] at hf
    have h0 := h o
    rw [hf, (InstantAddObject_snd self replica T s.1 s.2 hT).1, entries_append]
    simp only [references, hT] at h0 ⊢
    cases hL : s.1.m_lastCreatedObject with
    | none =>
      simp only [hL, spawnCalls] at h0 ⊢
      by_cases h1 : replica = o
      · simp [h1] at h0 ⊢
        omega
      · have h1' : ¬ some replica = some o := fun e => h1 (Option.some.inj e)
        simp [h1, h1'] at h0 ⊢
        omega
    | some L =>
      simp only [hL, spawnCalls] at h0 ⊢
      by_cases h1 : replica = o
      · by_cases h2 : L = o
        · simp [h1, h2] at h0 ⊢
          omega
        · have h2' : ¬ some L = some o := fun e => h2 (Option.some.inj e)
          simp [h1, h2, h2'] at h0 ⊢
          omega
      · have h1' : ¬ some replica = some o := fun e => h1 (Option.some.inj e)
        by_cases h2 : L = o
        · simp [h1, h1', h2] at h0 ⊢
          omega
        · have h2' : ¬ some L = some o := fun e => h2 (Option.some.inj e)
          simp [h1, h1', h2, h2'] at h0 ⊢
          omega

/-- Replacing the template reference by `g`, with the unregistration from the old template
and the registration with the new one, keeps a registration behind every reference. -/
theorem references_le_retarget (self : ActId) (a : SCA_AddObjectActuator) (cs : List Call)
    (g : Option ObjId) (h : ∀ o, references a o ≤ entries o self cs) (o : ObjId) :
    references { a with m_OriginalObject := g } o ≤
      entries o self (cs ++ retargetCalls self a.m_OriginalObject g) := by
  have h0 := h o
  rw [entries_append]
  simp only [references, retargetCalls] at h0 ⊢
  cases hT : a.m_OriginalObject with
  | none =>
    cases g with
    | none =>
      simp [hT] at h0 ⊢
      omega
    | some n =>
      by_cases h1 : n = o
      · simp [hT, h1] at h0 ⊢
        omega
      · have h1' : ¬ some n = some o := fun e => h1 (Option.some.inj e)
        simp [hT, h1, h1'] at h0 ⊢
        omega
  | some t =>
    by_cases h2 : t = o
    · cases g with
      | none =>
        simp [hT, h2] at h0 ⊢
        omega
      | some n =>
        by_cases h1 : n = o
        · simp [hT, h1, h2] at h0 ⊢
          omega
        · have h1' : ¬ some n = some o := fun e => h1 (Option.some.inj e)
          simp [hT, h1, h1', h2] at h0 ⊢
          omega
    · have h2' : ¬ some t = some o := fun e => h2 (Option.some.inj e)
      cases g with
      | none =>
        simp [hT, h2, h2'] at h0 ⊢
        omega
      | some n =>
        by_cases h1 : n = o
        · simp [hT, h1, h2, h2'] at h0 ⊢
          omega
        · have h1' : ¬ some n = some o := fun e => h1 (Option.some.inj e)
          simp [hT, h1, h1', h2, h2'] at h0 ⊢
          omega

/-- The result of `pyattr_set_object` for a value the conversion accepts as `g`. -/
theorem pyattr_set_object_accepted (self : ActId) (value : PyValue)
    (a : SCA_AddObjectActuator) (w : World) (g : Option ObjId)
    (hc : ConvertPythonToGameObject value true = some g) :
    (pyattr_set_object self value a w).2.1 = { a with m_OriginalObject := g } ∧
    (pyattr_set_object self value a w).2.2.calls =
      w.calls ++ retargetCalls self a.m_OriginalObject g := by
  simp only [pyattr_set_object, hc, retargetCalls]
  cases g <;> cases a.m_OriginalObject <;> simp

/-- The scripting assignment of the template keeps a registration behind every
reference. -/
theorem references_le_pyattr_set_object (self : ActId) (value : PyValue)
    (s : SCA_AddObjectActuator × World)
    (h : ∀ o, references s.1 o ≤ entries o self s.2.calls) (o : ObjId) :
    references (pyattr_set_object self value s.1 s.2).2.1 o ≤
      entries o self (pyattr_set_object self value s.1 s.2).2.2.calls := by
  rcases Option.eq_none_or_eq_some (ConvertPythonToGameObject value true) with hc | ⟨g, hc⟩
  · have e : pyattr_set_object self value s.1 s.2 =
        (PySetAttrResult.PY_SET_ATTR_FAIL, s.1, s.2) := by
      simp only [pyattr_set_object, hc]
    rw [e]
    exact h o
  · have e := pyattr_set_object_accepted self value s.1 s.2 g hc
    rw [e.1, e.2]
    exact references_le_retarget self s.1 s.2.calls g h o

/-- A call of `Relink` keeps a registration behind every reference. -/
theorem references_le_Relink (self : ActId) (obj_map : ObjMap)
    (s : SCA_AddObjectActuator × World)
    (h : ∀ o, references s.1 o ≤ entries o self s.2.calls) (o : ObjId) :
    references (Relink self obj_map s.1 s.2).1 o ≤
      entries o self (Relink self obj_map s.1 s.2).2.1.calls := by
  cases hr : (ObjMap.index obj_map s.1.m_OriginalObject).1 with
  | none =>
    rw [Relink_of_none self obj_map s.1 s.2 hr]
    exact h o
  | some N =>
    rw [Relink_of_some self obj_map s.1 s.2 N hr]
    have hcalls : (RegisterActuator N self
        (match s.1.m_OriginalObject with
         | some t => UnregisterActuator t self s.2
         | none => s.2)).calls =
        s.2.calls ++ retargetCalls self s.1.m_OriginalObject (some N) := by
      cases s.1.m_OriginalObject <;> simp [retargetCalls]
    rw [hcalls]
    exact references_le_retarget self s.1 s.2.calls (some N) h o

/-- An `UnlinkObject` notification for `clientobj` drops one reference to that object, if
there is one, and none to any other object. -/
theorem references_UnlinkObject (clientobj : ObjId) (a : SCA_AddObjectActuator)
    (o : ObjId) :
    references (UnlinkObject (some clientobj) a).2 o =
      if o = clientobj then references a o - 1 else references a o := by
  unfold UnlinkObject
  by_cases c1 : some clientobj = a.m_OriginalObject
  · rw [if_pos c1]
    by_cases ho : o = clientobj
    · subst ho
      simp [references, ← c1]
    · have hne : ¬ a.m_OriginalObject = some o := by
        rw [← c1]
        exact fun e => ho (Option.some.inj e).symm
      simp [references, ho, hne]
  · rw [if_neg c1]
    have c1' : ¬ a.m_OriginalObject = some clientobj := fun e => c1 e.symm
    by_cases c2 : some clientobj = a.m_lastCreatedObject
    · rw [if_pos c2]
      by_cases ho : o = clientobj
      · subst ho
        simp [references, ← c2, c1']
      · have hne : ¬ a.m_lastCreatedObject = some o := by
          rw [← c2]
          exact fun e => ho (Option.some.inj e).symm
        simp [references, ho, hne]
    · rw [if_neg c2]
      have c2' : ¬ a.m_lastCreatedObject = some clientobj := fun e => c2 e.symm
      by_cases ho : o = clientobj
      · subst ho
        simp [references, c1', c2']
      · simp [ho]

/-- Being replicated at another address leaves the registrations of the original as they
were. -/
theorem entries_GetReplica (baseProcessReplica : SCA_IActuator → SCA_IActuator)
    (self b : ActId) (hb : b ≠ self) (a : SCA_AddObjectActuator) (w : World) (o : ObjId) :
    entries o self (GetReplica baseProcessReplica b a w).2.calls = entries o self w.calls := by
  cases hT : a.m_OriginalObject with
  | none => simp [GetReplica, ProcessReplica, hT]
  | some T =>
    simp only [GetReplica, ProcessReplica, hT, calls_RegisterActuator, entries_append]
    simp [hb]

/-- In every tracked state there are at least as many outstanding registrations of the
actuator with an object as the actuator has references to it. -/
theorem references_le_of_Tracked (baseProcessReplica : SCA_IActuator → SCA_IActuator)
    (self : ActId) (s : SCA_AddObjectActuator × World)
    (h : Tracked baseProcessReplica self s) :
    ∀ o, references s.1 o ≤ entries o self s.2.calls := by
  induction h with
  | constructed gameobj original time scene linvel linv_local angvel angv_local w =>
    exact references_le_ctor self gameobj original time scene linvel linv_local angvel
      angv_local w
  | madeAsReplica a w => exact references_le_GetReplica baseProcessReplica self a w
  | afterAddEvent event s _ ih => exact ih
  | afterUpdate replica s _ ih =>
    intro o
    cases hneg : s.1.IsNegativeEvent with
    | true =>
      have e : (Update self replica s.1 s.2).2 = (s.1.RemoveAllEvents, s.2) := by
        simp [Update, hneg]
      rw [e]
      exact ih o
    | false =>
      have e : (Update self replica s.1 s.2).2 =
          InstantAddObject self replica s.1.RemoveAllEvents s.2 := by
        simp [Update, hneg]
      rw [e]
      exact references_le_InstantAddObject self replica (s.1.RemoveAllEvents, s.2) ih o
  | afterInstantAddObject replica s _ ih =>
    exact references_le_InstantAddObject self replica s ih
  | afterSetObject value s _ ih => exact references_le_pyattr_set_object self value s ih
  | afterRelink obj_map s _ ih => exact references_le_Relink self obj_map s ih
  | afterUnlinkObject clientobj s _ ih =>
    intro o
    have h1 := references_UnlinkObject clientobj s.1 o
    have h2 := ih o
    show references (UnlinkObject (some clientobj) s.1).2 o ≤ entries o self s.2.calls
    rw [h1]
    split <;> omega
  | afterReplication b s hb _ ih =>
    intro o
    show references s.1 o ≤
      entries o self (GetReplica baseProcessReplica b s.1 s.2).2.calls
    rw [entries_GetReplica baseProcessReplica self b hb s.1 s.2 o]
    exact ih o

/-- Enough `UnlinkObject` notifications for an object drop every reference to it. -/
theorem references_unlinkAll (clientobj : ObjId) (n : Nat) :
    ∀ a : SCA_AddObjectActuator, references a clientobj ≤ n →
      references (unlinkAll clientobj n a) clientobj = 0 := by
  induction n with
  | zero =>
    intro a h
    exact Nat.le_zero.mp h
  | succ k ih =>
    intro a h
    show references (unlinkAll clientobj k (UnlinkObject (some clientobj) a).2) clientobj = 0
    apply ih
    rw [references_UnlinkObject]
    simp only [if_true]
    omega

/-- The example state `Example.aliased` is a tracked state. -/
theorem aliased_tracked : Tracked Example.dropEvents 7 Example.aliased :=
  Tracked.afterSetObject (pyattr_get_objectLastCreated Example.spawned.1) Example.spawned
    (Tracked.afterInstantAddObject 2 Example.constructed
      (Tracked.constructed (some 0) (some 1) 0 0 ⟨1, 0, 0⟩ false ⟨0, 0, 0⟩ false
        World.empty))

end SCA_AddObjectActuator

end SCA
